import Mathlib

/-!
Verification of the bp-analysis-service (Final-Year-Project repository).

This file is a shallow embedding, in Lean 4, of the analysis services of
`app/` (cache, insights, risk assessment, health score, predictions,
forecast, correlations, patterns), together with theorems settling the
frozen claims C1..C10 about them.

Modelling conventions:
* Python numbers (ints and floats) are modelled as exact rationals `ℚ`
  (integer results as `ℤ`/`ℕ`); float arithmetic is idealised as exact.
* Python `round(x)` / `round(x, k)` (round-half-to-even) is `pyRound` /
  `pyRoundDec`.
* Python dict/record fields that may be absent are `Option` fields;
  `d.get(k) or v` (which also replaces falsy `0`/`""` values) is modelled
  explicitly where it occurs.
* Fallible services return `Except AnalysisErr α`; raising an exception is
  returning `.error`.
* Dates (`measurement_date`, forecast dates) are modelled as integer day
  numbers; `(last - first).days` becomes integer subtraction.
-/

/- Core marks the `Rat` arithmetic primitives `@[irreducible]`, which
blocks `decide`/`rfl` evaluation of the embedded services on concrete
inputs; restore reducibility (the kernel is unaffected by reducibility
attributes, so checked proofs are unchanged). -/
set_option allowUnsafeReducibility true in
attribute [semireducible] Rat.mul Rat.add Rat.sub Rat.div Rat.inv Rat.neg
  Rat.blt Rat.normalize

/-- Python `round(q)`: round half to even, to an integer. -/
def pyRound (q : ℚ) : ℤ :=
  let f : ℤ := ⌊q⌋
  let r : ℚ := q - (f : ℚ)
  if r < 1/2 then f
  else if 1/2 < r then f + 1
  else if f % 2 = 0 then f else f + 1

/-- Python `round(q, d)`: round half to even, keeping `d` decimal places. -/
def pyRoundDec (d : ℕ) (q : ℚ) : ℚ :=
  ((pyRound (q * (10 : ℚ) ^ d) : ℚ)) / (10 : ℚ) ^ d

/-- Python `round(q, 1)`. -/
def pyRound1 (q : ℚ) : ℚ := pyRoundDec 1 q

/-- Python `int(q)`: truncation toward zero. -/
def pyInt (q : ℚ) : ℤ := if 0 ≤ q then ⌊q⌋ else ⌈q⌉

/-- Mean of a list of rationals (callers guard against the empty list,
where Python would raise `ZeroDivisionError`; `ℚ` division by zero is 0). -/
def avgQ (l : List ℚ) : ℚ := l.sum / (l.length : ℚ)

/-- Whether `needle` is a prefix of `hay` (on character lists). -/
def listIsPref : List Char → List Char → Bool
  | [], _ => true
  | _ :: _, [] => false
  | c :: cs, h :: hs => c = h && listIsPref cs hs

/-- Helper for `pyInStr`: substring search on character lists. -/
def listIsSub (needle : List Char) : List Char → Bool
  | [] => listIsPref needle []
  | h :: hs => listIsPref needle (h :: hs) || listIsSub needle hs

/-- Python `needle in hay` on strings (substring test). -/
def pyInStr (needle hay : String) : Bool := listIsSub needle.data hay.data

/-- Python `s.lower()` (character-wise lowercasing; the histories the code
matches against are ASCII). -/
def pyLower (s : String) : String := ⟨s.data.map Char.toLower⟩

/-- Render an integer in decimal, as Python `str`/`f"{n}"` would. -/
def fmtInt (n : ℤ) : String := toString n

/-- Python `f"{q:.0f}"`: round half to even to an integer and render it. -/
def fmtF0 (q : ℚ) : String := toString (pyRound q)

/-- Python `f"{q:.1f}"`: round half to even to one decimal and render it. -/
def fmtF1 (q : ℚ) : String :=
  let t : ℤ := pyRound (q * 10)
  let m : ℕ := t.natAbs
  let core : String := toString (m / 10) ++ "." ++ toString (m % 10)
  if t < 0 then "-" ++ core else core

/-- Python `f"{s:.1f}"` where `s = sqrt v` (used for standard deviations):
computed exactly from the radicand `v ≥ 0` using integer square roots. -/
def fmtSqrt1 (v : ℚ) : String :=
  let a : ℕ := v.num.natAbs
  let b : ℕ := v.den
  -- floor (10 * sqrt (a / b)) = floor (sqrt (100 * a * b) / b)
  let f : ℕ := Nat.sqrt (100 * a * b) / b
  -- compare 10 * sqrt v with f + 1/2 by squaring (exact)
  let half : ℚ := (f : ℚ) + 1/2
  let t : ℤ :=
    if half ^ 2 < 100 * v then (f : ℤ) + 1
    else if 100 * v < half ^ 2 then (f : ℤ)
    else if (f : ℤ) % 2 = 0 then (f : ℤ) else (f : ℤ) + 1
  let m : ℕ := t.natAbs
  toString (m / 10) ++ "." ++ toString (m % 10)

/-! ## MD5 (RFC 1321), used by `AnalysisCache._make_key` via `hashlib.md5`

All words are natural numbers kept below `2^32` by explicit masking. -/

/-- Mask to 32 bits. -/
def m32 (n : ℕ) : ℕ := n % 4294967296

/-- 32-bit left rotation. -/
def rotl32 (x s : ℕ) : ℕ := m32 ((x <<< s) ||| (x >>> (32 - s)))

/-- 32-bit bitwise complement. -/
def not32 (x : ℕ) : ℕ := 4294967295 ^^^ x

/-- The 64 MD5 sine-derived constants. -/
def md5K : List ℕ :=
  [0xd76aa478, 0xe8c7b756, 0x242070db, 0xc1bdceee,
   0xf57c0faf, 0x4787c62a, 0xa8304613, 0xfd469501,
   0x698098d8, 0x8b44f7af, 0xffff5bb1, 0x895cd7be,
   0x6b901122, 0xfd987193, 0xa679438e, 0x49b40821,
   0xf61e2562, 0xc040b340, 0x265e5a51, 0xe9b6c7aa,
   0xd62f105d, 0x02441453, 0xd8a1e681, 0xe7d3fbc8,
   0x21e1cde6, 0xc33707d6, 0xf4d50d87, 0x455a14ed,
   0xa9e3e905, 0xfcefa3f8, 0x676f02d9, 0x8d2a4c8a,
   0xfffa3942, 0x8771f681, 0x6d9d6122, 0xfde5380c,
   0xa4beea44, 0x4bdecfa9, 0xf6bb4b60, 0xbebfbc70,
   0x289b7ec6, 0xeaa127fa, 0xd4ef3085, 0x04881d05,
   0xd9d4d039, 0xe6db99e5, 0x1fa27cf8, 0xc4ac5665,
   0xf4292244, 0x432aff97, 0xab9423a7, 0xfc93a039,
   0x655b59c3, 0x8f0ccc92, 0xffeff47d, 0x85845dd1,
   0x6fa87e4f, 0xfe2ce6e0, 0xa3014314, 0x4e0811a1,
   0xf7537e82, 0xbd3af235, 0x2ad7d2bb, 0xeb86d391]

/-- The 64 MD5 per-round shift amounts. -/
def md5S : List ℕ :=
  [7, 12, 17, 22, 7, 12, 17, 22, 7, 12, 17, 22, 7, 12, 17, 22,
   5, 9, 14, 20, 5, 9, 14, 20, 5, 9, 14, 20, 5, 9, 14, 20,
   4, 11, 16, 23, 4, 11, 16, 23, 4, 11, 16, 23, 4, 11, 16, 23,
   6, 10, 15, 21, 6, 10, 15, 21, 6, 10, 15, 21, 6, 10, 15, 21]

/-- Little-endian bytes of `n`, exactly `k` bytes. -/
def toLEBytes : ℕ → ℕ → List ℕ
  | 0, _ => []
  | k + 1, n => n % 256 :: toLEBytes k (n / 256)

/-- MD5 padding of a byte message: append `0x80`, zero-pad to 56 mod 64,
then the 8-byte little-endian bit length. -/
def md5pad (msg : List ℕ) : List ℕ :=
  let len := msg.length
  let zeros := (56 + 64 - (len + 1) % 64) % 64
  msg ++ [128] ++ List.replicate zeros 0 ++ toLEBytes 8 ((8 * len) % 2 ^ 64)

/-- One MD5 round step on state `(a, b, c, d)` at round index `i`, with
message words `M` (16 little-endian 32-bit words). -/
def md5step (M : List ℕ) (st : ℕ × ℕ × ℕ × ℕ) (i : ℕ) : ℕ × ℕ × ℕ × ℕ :=
  let (a, b, c, d) := st
  let fg : ℕ × ℕ :=
    if i < 16 then ((b &&& c) ||| (not32 b &&& d), i)
    else if i < 32 then ((d &&& b) ||| (not32 d &&& c), (5 * i + 1) % 16)
    else if i < 48 then (b ^^^ c ^^^ d, (3 * i + 5) % 16)
    else (c ^^^ (b ||| not32 d), (7 * i) % 16)
  let f := m32 (fg.1 + a + md5K.getD i 0 + M.getD fg.2 0)
  (d, m32 (b + rotl32 f (md5S.getD i 0)), b, c)

/-- Process one 64-byte block, updating the running state. -/
def md5block (st : ℕ × ℕ × ℕ × ℕ) (block : List ℕ) : ℕ × ℕ × ℕ × ℕ :=
  let M : List ℕ := (List.range 16).map fun w =>
    block.getD (4 * w) 0 + 256 * block.getD (4 * w + 1) 0 +
      65536 * block.getD (4 * w + 2) 0 + 16777216 * block.getD (4 * w + 3) 0
  let (a0, b0, c0, d0) := st
  let (a, b, c, d) := (List.range 64).foldl (md5step M) (a0, b0, c0, d0)
  (m32 (a0 + a), m32 (b0 + b), m32 (c0 + c), m32 (d0 + d))

/-- Lowercase hex digit for a nibble. -/
def hexDigit (n : ℕ) : Char :=
  "0123456789abcdef".data.getD n '0'

/-- Lowercase hex rendering of a byte list (two digits per byte). -/
def bytesToHex (bytes : List ℕ) : String :=
  ⟨bytes.foldr (fun b acc => hexDigit (b / 16) :: hexDigit (b % 16) :: acc) []⟩

/-- MD5 digest of an ASCII string, as a lowercase 32-character hex string
(Python `hashlib.md5(s.encode()).hexdigest()`). -/
def md5hex (s : String) : String :=
  let padded := md5pad (s.data.map Char.toNat)
  let blocks := (List.range (padded.length / 64)).map fun b =>
    (padded.drop (64 * b)).take 64
  let (a, b, c, d) :=
    blocks.foldl md5block (0x67452301, 0xefcdab89, 0x98badcfe, 0x10325476)
  bytesToHex (toLEBytes 4 a ++ toLEBytes 4 b ++ toLEBytes 4 c ++ toLEBytes 4 d)

/-! ## `app/utils/cache.py`: `AnalysisCache` -/

/-- `AnalysisCache._make_key` for a call without extra kwargs:
`json.dumps({"patient_id": pid, "type": ty}, sort_keys=True)` (the keys
`"patient_id" < "type"` are already sorted), then the MD5 hex digest. -/
def make_key (patient_id analysis_type : String) : String :=
  md5hex ("\x7b\"patient_id\": \"" ++ patient_id ++ "\", \"type\": \"" ++
    analysis_type ++ "\"\x7d")

/-- `AnalysisCache.invalidate`: the cache is an association list from key
strings to values; the code deletes exactly the keys `k` with
`patient_id in str(k)` (Python substring test). -/
def invalidate (patient_id : String) (cache : List (String × α)) :
    List (String × α) :=
  cache.filter fun kv => !(pyInStr patient_id kv.1)

/-! ## Data model (`app/models`, shapes of the Supabase rows used) -/

/-- A blood-pressure reading row. `measurement_date` is a day number
(the code parses ISO timestamps; only day-level ordering and grouping are
used). `pulse`, `time_of_day`, `position` may be absent. -/
structure Reading where
  systolic : ℚ
  diastolic : ℚ
  pulse : Option ℚ := none
  measurement_date : ℤ := 0
  time_of_day : Option String := none
  position : Option String := none
deriving DecidableEq

/-- A medication row (`active` absent means `m.get("active", True) = True`). -/
structure Medication where
  name : String := ""
  active : Option Bool := none
  adherence_rate : Option ℚ := none
deriving DecidableEq

/-- A lifestyle-entry row; `entry_date` is a day number used for joining
with readings. -/
structure LifestyleEntry where
  entry_date : Option ℤ := none
  physical_activity : Option ℚ := none
  diet_quality : Option String := none
  salt_intake : Option String := none
  stress_level : Option String := none
  sleep_duration : Option ℚ := none
  sleep_quality : Option String := none
  alcohol_consumption : Option ℚ := none
  smoking_status : Option String := none
  water_intake : Option ℚ := none
  weight : Option ℚ := none
  sodium_mg : Option ℚ := none
  caffeine_intake : Option ℚ := none
deriving DecidableEq

/-- The patient fields the services read: `patient["users"]["age"]` and
`patient["medical_history"]`. -/
structure Patient where
  age : Option ℚ := none
  medical_history : Option String := none
deriving DecidableEq

/-- The exceptions of `app/errors/handlers.py` that the services raise,
with the `details` payloads they carry. -/
inductive AnalysisErr where
  | patientNotFound (patient_id : String)
  | insufficientData (readings_count minimum_required : ℕ)
  | insufficientDailyData (days_with_data minimum_required : ℕ)
deriving DecidableEq

deriving instance DecidableEq for Except

/-- `Settings.min_readings_for_analysis` (default value, `app/config.py`). -/
def min_readings_for_analysis : ℕ := 7

/-- Python `o or d` on an optional number: `None` and `0` are falsy. -/
def pyOr (o : Option ℚ) (d : ℚ) : ℚ :=
  match o with
  | none => d
  | some v => if v = 0 then d else v

/-- Python truthiness of an optional number (`if r.get("pulse")`). -/
def pyTruthy (o : Option ℚ) : Bool :=
  match o with
  | none => false
  | some v => v ≠ 0

/-- Python `max` of a list of rationals (callers guard nonemptiness). -/
def pyMax (l : List ℚ) : ℚ :=
  match l with
  | [] => 0
  | h :: t => t.foldl max h

/-- Python `min` of a list of rationals (callers guard nonemptiness). -/
def pyMin (l : List ℚ) : ℚ :=
  match l with
  | [] => 0
  | h :: t => t.foldl min h

/-! ## `app/services/insights.py`

The `id` (a fresh UUID) is not modelled; `timestamp` is passed in as the
string the code computes from `datetime.now()`. -/

/-- The frontend `Insight` shape (minus the UUID `id`). -/
structure Insight where
  type : String
  title : String
  message : String
  priority : ℕ
  timestamp : String
  recommendations : List String := []
deriving DecidableEq

namespace Insights

/-- The single "More Data Needed" insight returned when there are fewer
readings than the configured minimum. -/
def needMoreData (count required : ℕ) (now : String) : Insight :=
  { type := "info"
    title := "More Data Needed"
    message := s!"You have {count} readings. We need at least {required} for detailed analysis."
    priority := 3
    timestamp := now
    recommendations := ["Take your blood pressure daily",
                        "Log readings at consistent times"] }

/-- `_analyze_bp_patterns`. -/
def analyze_bp_patterns (readings : List Reading) (timestamp : String) :
    List Insight :=
  if readings = [] then []
  else
    let recent_readings := readings.take 14
    let older_readings :=
      if readings.length > 14 then (readings.drop 14).take 14 else []
    let avg_systolic := avgQ (recent_readings.map (·.systolic))
    let _avg_diastolic := avgQ (recent_readings.map (·.diastolic))
    let improvementBlock :=
      if older_readings ≠ [] then
        let old_avg_sys := avgQ (older_readings.map (·.systolic))
        if avg_systolic < old_avg_sys - 5 then
          [{ type := "success", title := "Blood Pressure Improving"
             message := s!"Your average systolic BP has decreased by {fmtF0 (old_avg_sys - avg_systolic)} mmHg compared to the previous period."
             priority := 1, timestamp
             recommendations := ["Keep up your current routine",
                                 "Continue monitoring regularly"] }]
        else if avg_systolic > old_avg_sys + 5 then
          [{ type := "warning", title := "Blood Pressure Trending Up"
             message := s!"Your average systolic BP has increased by {fmtF0 (avg_systolic - old_avg_sys)} mmHg. Consider reviewing your lifestyle factors."
             priority := 2, timestamp
             recommendations := ["Review your sodium intake",
                                 "Ensure medication compliance",
                                 "Consider scheduling a check-up"] }]
        else []
      else []
    let high_count :=
      (recent_readings.filter fun r =>
        140 ≤ r.systolic ∨ 90 ≤ r.diastolic).length
    let highBlock :=
      if (high_count : ℚ) > (recent_readings.length : ℚ) * (1/2) then
        [{ type := "danger", title := "Consistently Elevated Readings"
           message := s!"{high_count} out of {recent_readings.length} recent readings are elevated. Please consult your healthcare provider."
           priority := 1, timestamp
           recommendations := ["Contact your doctor", "Review your medication",
                               "Monitor more frequently"] }]
      else []
    let critical_count :=
      (recent_readings.filter fun r =>
        180 ≤ r.systolic ∨ 120 ≤ r.diastolic).length
    let criticalBlock :=
      if critical_count > 0 then
        [{ type := "danger", title := "Critical Reading Detected"
           message := s!"You had {critical_count} reading(s) in the critical range. Seek medical attention if symptoms occur."
           priority := 1, timestamp
           recommendations := ["Seek immediate medical attention if experiencing symptoms",
                               "Contact your healthcare provider today",
                               "Do not skip medications"] }]
      else []
    let normal_count :=
      (recent_readings.filter fun r =>
        r.systolic < 130 ∧ r.diastolic < 85).length
    let normalBlock :=
      if (recent_readings.length : ℚ) * (7/10) ≤ (normal_count : ℚ) then
        [{ type := "success", title := "Excellent BP Control"
           message := s!"{normal_count} out of {recent_readings.length} readings are within normal range. Great job!"
           priority := 2, timestamp
           recommendations := ["Maintain your current lifestyle",
                               "Continue regular monitoring"] }]
      else []
    let systolic_values := recent_readings.map (·.systolic)
    let variabilityBlock :=
      if pyMax systolic_values - pyMin systolic_values > 30 then
        [{ type := "warning", title := "High BP Variability"
           message := "Your blood pressure readings show significant variability. Consistent readings are important for accurate assessment."
           priority := 3, timestamp
           recommendations := ["Take readings at the same time daily",
                               "Rest for 5 minutes before measuring",
                               "Use the same arm each time"] }]
      else []
    improvementBlock ++ highBlock ++ criticalBlock ++ normalBlock ++
      variabilityBlock

/-- `_analyze_medication_adherence`. -/
def analyze_medication_adherence (medications : List Medication)
    (timestamp : String) : List Insight :=
  let active_meds := medications.filter fun m => m.active.getD true
  if active_meds = [] then []
  else
    let low_adherence_meds := active_meds.filter fun m => pyOr m.adherence_rate 100 < 85
    let high_adherence_meds := active_meds.filter fun m => 95 ≤ pyOr m.adherence_rate 0
    let lowBlock :=
      if low_adherence_meds ≠ [] then
        let med_names := String.intercalate ", "
          ((low_adherence_meds.take 2).map (·.name))
        [{ type := "warning", title := "Medication Adherence Alert"
           message := s!"Your adherence to {med_names} could be improved. Consistent medication use is key to BP control."
           priority := 2, timestamp
           recommendations := ["Set daily medication reminders",
                               "Use a pill organizer",
                               "Talk to your doctor if side effects are an issue"] }]
      else []
    let highBlock :=
      if high_adherence_meds.length = active_meds.length ∧ active_meds ≠ [] then
        [{ type := "success", title := "Excellent Medication Adherence"
           message := "You're taking your medications consistently. This significantly helps control your blood pressure."
           priority := 3, timestamp }]
      else []
    lowBlock ++ highBlock

/-- `_analyze_lifestyle`. -/
def analyze_lifestyle (lifestyle : List LifestyleEntry) (timestamp : String) :
    List Insight :=
  match lifestyle with
  | [] => []
  | recent :: _ =>
    let activity := pyOr recent.physical_activity 0
    let exerciseBlock :=
      if 30 ≤ activity then
        [{ type := "success", title := "Great Exercise Habits"
           message := s!"You logged {fmtF0 activity} minutes of activity. Regular exercise helps lower BP naturally."
           priority := 4, timestamp }]
      else if activity < 15 then
        [{ type := "info", title := "Increase Physical Activity"
           message := "Consider adding more physical activity to your routine. Even a 30-minute walk can help."
           priority := 3, timestamp
           recommendations := ["Aim for 30 minutes of moderate exercise daily",
                               "Start with walking",
                               "Take the stairs when possible"] }]
      else []
    let saltBlock :=
      if recent.salt_intake = some "high" then
        [{ type := "warning", title := "High Sodium Intake"
           message := "High sodium intake can elevate blood pressure. Try to reduce salt in your diet."
           priority := 2, timestamp
           recommendations := ["Avoid processed foods",
                               "Don't add salt at the table",
                               "Read nutrition labels"] }]
      else []
    let sleep := pyOr recent.sleep_duration 7
    let sleepBlock :=
      if sleep < 6 then
        [{ type := "warning", title := "Insufficient Sleep"
           message := s!"You're getting {fmtF1 sleep} hours of sleep. Poor sleep can affect blood pressure."
           priority := 3, timestamp
           recommendations := ["Aim for 7-9 hours of sleep",
                               "Maintain a consistent sleep schedule",
                               "Limit screen time before bed"] }]
      else []
    let stressBlock :=
      if recent.stress_level = some "high" ∨ recent.stress_level = some "severe" then
        [{ type := "warning", title := "High Stress Levels"
           message := "Chronic stress can elevate blood pressure. Consider stress management techniques."
           priority := 3, timestamp
           recommendations := ["Practice deep breathing exercises",
                               "Try meditation or yoga",
                               "Take regular breaks during work"] }]
      else []
    exerciseBlock ++ saltBlock ++ sleepBlock ++ stressBlock

/-- `_analyze_time_patterns` (insights variant). -/
def analyze_time_patterns (readings : List Reading) (timestamp : String) :
    List Insight :=
  if readings.length < 7 then []
  else
    let morning := readings.filter fun r => r.time_of_day = some "morning"
    let evening := readings.filter fun r =>
      r.time_of_day = some "evening" ∨ r.time_of_day = some "night"
    if 3 ≤ morning.length ∧ 3 ≤ evening.length then
      let morning_avg := avgQ (morning.map (·.systolic))
      let evening_avg := avgQ (evening.map (·.systolic))
      if morning_avg - evening_avg > 15 then
        [{ type := "info", title := "Morning Blood Pressure Surge"
           message := s!"Your morning readings average {fmtF0 morning_avg} mmHg vs {fmtF0 evening_avg} mmHg in the evening. Morning surges are common but worth monitoring."
           priority := 3, timestamp
           recommendations := ["Take morning medications before getting out of bed",
                               "Rise slowly in the morning",
                               "Discuss with your doctor if pattern persists"] }]
      else if evening_avg - morning_avg > 15 then
        [{ type := "warning", title := "Elevated Evening Readings"
           message := s!"Your blood pressure tends to spike in the evening hours ({fmtF0 evening_avg} mmHg vs {fmtF0 morning_avg} mmHg in the morning)."
           priority := 2, timestamp
           recommendations := ["Reduce salt intake after 6 PM",
                               "Practice relaxation techniques before bed",
                               "Avoid caffeine in the afternoon"] }]
      else []
    else []

end Insights

/-- `generate_insights`: fetches are modelled as parameters; the function
raises `PatientNotFound` when the patient is absent, short-circuits with
the single "More Data Needed" insight when there are fewer readings than
the minimum, otherwise collects the analysis insights, sorts them stably
by ascending priority (Python `list.sort` is stable) and keeps the
first 8. -/
def generate_insights (patient_id : String) (patient : Option Patient)
    (readings : List Reading) (medications : List Medication)
    (lifestyle : List LifestyleEntry) (now : String) :
    Except AnalysisErr (List Insight) :=
  match patient with
  | none => .error (.patientNotFound patient_id)
  | some _ =>
    if readings.length < min_readings_for_analysis then
      .ok [Insights.needMoreData readings.length min_readings_for_analysis now]
    else
      let insights :=
        Insights.analyze_bp_patterns readings now ++
        (if medications ≠ [] then
          Insights.analyze_medication_adherence medications now else []) ++
        (if lifestyle ≠ [] then
          Insights.analyze_lifestyle lifestyle now else []) ++
        Insights.analyze_time_patterns readings now
      .ok ((insights.insertionSort fun a b => a.priority ≤ b.priority).take 8)

/-! ## `app/services/risk_assessment.py`

The body accumulates `risk_score`, `factors` and `recommendations` in four
sections; each section is embedded as a function returning its score
contribution and the factors/recommendations it appends, in program
order. `fetch_medication_logs` is called but its result is never used by
the body, so it is not a parameter here. -/

structure RiskFactor where
  name : String
  impact : String
  description : String
deriving DecidableEq

structure RiskAssessment where
  overallRisk : String
  riskScore : ℤ
  factors : List RiskFactor
  recommendations : List String
deriving DecidableEq

namespace Risk

/-- Section 1: blood pressure analysis (0-35 points). -/
def bpSection (readings : List Reading) : ℤ × List RiskFactor × List String :=
  if readings ≠ [] then
    let recent_readings := readings.take 14
    let avg_systolic := avgQ (recent_readings.map (·.systolic))
    let avg_diastolic := avgQ (recent_readings.map (·.diastolic))
    let high_count :=
      (recent_readings.filter fun r => 140 ≤ r.systolic ∨ 90 ≤ r.diastolic).length
    let critical_count :=
      (recent_readings.filter fun r => 180 ≤ r.systolic ∨ 120 ≤ r.diastolic).length
    let criticalBlock : ℤ × List RiskFactor × List String :=
      if critical_count > 0 then
        (25,
         [{ name := "Critical BP Episodes", impact := "high"
            description := s!"{critical_count} reading(s) in hypertensive crisis range" }],
         ["Seek immediate medical evaluation for critical readings"])
      else (0, [], [])
    let high_percentage : ℚ :=
      if recent_readings ≠ [] then
        ((high_count : ℚ) / (recent_readings.length : ℚ)) * 100
      else 0
    let highBlock : ℤ × List RiskFactor × List String :=
      if 70 ≤ high_percentage then
        (20,
         [{ name := "Consistently Elevated BP", impact := "high"
            description := s!"{fmtF0 high_percentage}% of readings are elevated" }],
         ["Review current medication effectiveness with provider"])
      else if 40 ≤ high_percentage then
        (12,
         [{ name := "Frequently Elevated BP", impact := "moderate"
            description := s!"{fmtF0 high_percentage}% of readings are elevated" }],
         ["Monitor blood pressure more frequently"])
      else if 20 ≤ high_percentage then
        (5,
         [{ name := "Occasionally Elevated BP", impact := "low"
            description := s!"{fmtF0 high_percentage}% of readings are elevated" }],
         [])
      else (0, [], [])
    let avgPoints : ℤ :=
      if 160 ≤ avg_systolic ∨ 100 ≤ avg_diastolic then 10
      else if 140 ≤ avg_systolic ∨ 90 ≤ avg_diastolic then 6
      else if 130 ≤ avg_systolic ∨ 85 ≤ avg_diastolic then 3
      else 0
    let systolic_values := recent_readings.map (·.systolic)
    let variability : ℚ :=
      if systolic_values ≠ [] then pyMax systolic_values - pyMin systolic_values
      else 0
    let varBlock : ℤ × List RiskFactor × List String :=
      if variability > 40 then
        (8,
         [{ name := "Blood Pressure Variability", impact := "high"
            description := s!"Readings vary by {fmtF0 variability} mmHg between measurements" }],
         ["Maintain consistent measurement times and conditions"])
      else if variability > 25 then
        (4,
         [{ name := "Blood Pressure Variability", impact := "moderate"
            description := s!"Readings vary by {fmtF0 variability} mmHg between measurements" }],
         [])
      else (0, [], [])
    (criticalBlock.1 + highBlock.1 + avgPoints + varBlock.1,
     criticalBlock.2.1 ++ highBlock.2.1 ++ varBlock.2.1,
     criticalBlock.2.2 ++ highBlock.2.2 ++ varBlock.2.2)
  else
    (10,
     [{ name := "Insufficient BP Data", impact := "moderate"
        description := "No recent blood pressure readings available" }],
     ["Start monitoring blood pressure daily"])

/-- Section 2: medication adherence (0-20 points). -/
def medicationSection (medications : List Medication) :
    ℤ × List RiskFactor × List String :=
  if medications ≠ [] then
    let active_meds := medications.filter fun m => m.active.getD true
    if active_meds ≠ [] then
      let adherence_rates := active_meds.map fun m => pyOr m.adherence_rate 100
      let avg_adherence := avgQ adherence_rates
      if avg_adherence < 70 then
        (20,
         [{ name := "Poor Medication Adherence", impact := "high"
            description := s!"Average adherence rate is {fmtF0 avg_adherence}%" }],
         ["Set up medication reminders and discuss barriers with your doctor"])
      else if avg_adherence < 85 then
        (12,
         [{ name := "Medication Adherence", impact := "moderate"
            description := s!"Missed doses detected (adherence: {fmtF0 avg_adherence}%)" }],
         ["Use a pill organizer or reminder app"])
      else if 95 ≤ avg_adherence then
        (0,
         [{ name := "Medication Adherence", impact := "low"
            description := s!"Excellent adherence rate ({fmtF0 avg_adherence}%)" }],
         [])
      else (0, [], [])
    else (0, [], [])
  else (0, [], [])

/-- Section 3: lifestyle factors (0-25 points), from the most recent entry. -/
def lifestyleSection (lifestyle : List LifestyleEntry) :
    ℤ × List RiskFactor × List String :=
  match lifestyle with
  | [] => (0, [], [])
  | recent_lifestyle :: _ =>
    let saltBlock : ℤ × List RiskFactor × List String :=
      if recent_lifestyle.salt_intake = some "high" then
        (8,
         [{ name := "High Sodium Diet", impact := "high"
            description := "Reported high salt intake increases BP" }],
         ["Reduce sodium intake to less than 2,300mg daily"])
      else if recent_lifestyle.salt_intake = some "moderate" then (3, [], [])
      else (0, [], [])
    let activity := pyOr recent_lifestyle.physical_activity 0
    let activityBlock : ℤ × List RiskFactor × List String :=
      if activity < 15 then
        (8,
         [{ name := "Low Physical Activity", impact := "high"
            description := s!"Only {fmtF0 activity} minutes of activity logged" }],
         ["Aim for 30 minutes of moderate exercise 5 days a week"])
      else if activity < 30 then
        (4,
         [{ name := "Physical Activity", impact := "moderate"
            description := s!"{fmtF0 activity} minutes of activity - could be increased" }],
         [])
      else (0, [], [])
    let stressBlock : ℤ × List RiskFactor × List String :=
      if recent_lifestyle.stress_level = some "severe" then
        (8,
         [{ name := "Severe Stress", impact := "high"
            description := "High stress levels can significantly elevate BP" }],
         ["Practice stress management: meditation, deep breathing, or yoga"])
      else if recent_lifestyle.stress_level = some "high" then
        (5,
         [{ name := "High Stress", impact := "moderate"
            description := "Stress can contribute to elevated blood pressure" }],
         [])
      else (0, [], [])
    let sleep := pyOr recent_lifestyle.sleep_duration 7
    let sleepBlock : ℤ × List RiskFactor × List String :=
      if sleep < 5 then
        (6,
         [{ name := "Sleep Deprivation", impact := "high"
            description := s!"Only {fmtF1 sleep} hours of sleep" }],
         ["Prioritize getting 7-9 hours of quality sleep"])
      else if sleep < 6 then
        (3,
         [{ name := "Insufficient Sleep", impact := "moderate"
            description := s!"{fmtF1 sleep} hours of sleep - below recommended" }],
         [])
      else (0, [], [])
    let alcohol := pyOr recent_lifestyle.alcohol_consumption 0
    let alcoholBlock : ℤ × List RiskFactor × List String :=
      if alcohol > 2 then
        (5,
         [{ name := "Alcohol Consumption", impact := "moderate"
            description := s!"{fmtF0 alcohol} drinks - above recommended limit" }],
         ["Limit alcohol to 1-2 drinks per day maximum"])
      else (0, [], [])
    let smokingBlock : ℤ × List RiskFactor × List String :=
      if recent_lifestyle.smoking_status = some "current" then
        (10,
         [{ name := "Smoking", impact := "high"
            description := "Smoking significantly increases cardiovascular risk" }],
         ["Consider smoking cessation programs"])
      else (0, [], [])
    (saltBlock.1 + activityBlock.1 + stressBlock.1 + sleepBlock.1 +
       alcoholBlock.1 + smokingBlock.1,
     saltBlock.2.1 ++ activityBlock.2.1 ++ stressBlock.2.1 ++ sleepBlock.2.1 ++
       alcoholBlock.2.1 ++ smokingBlock.2.1,
     saltBlock.2.2 ++ activityBlock.2.2 ++ stressBlock.2.2 ++ sleepBlock.2.2 ++
       alcoholBlock.2.2 ++ smokingBlock.2.2)

/-- Section 4: patient demographics and medical history (0-15 points). -/
def demographicsSection (patient : Patient) :
    ℤ × List RiskFactor × List String :=
  let age := pyOr patient.age 0
  let ageBlock : ℤ × List RiskFactor × List String :=
    if 65 ≤ age then
      (10,
       [{ name := "Age", impact := "moderate"
          description := s!"Age {fmtF0 age} is a non-modifiable risk factor" }],
       [])
    else if 55 ≤ age then (6, [], [])
    else if 45 ≤ age then (3, [], [])
    else (0, [], [])
  let medical_history := pyLower (patient.medical_history.getD "")
  let diabetesBlock : ℤ × List RiskFactor × List String :=
    if pyInStr "diabetes" medical_history then
      (10,
       [{ name := "Diabetes", impact := "high"
          description := "Diabetes increases cardiovascular risk" }],
       ["Maintain good blood sugar control"])
    else (0, [], [])
  let kidneyBlock : ℤ × List RiskFactor × List String :=
    if pyInStr "kidney" medical_history ∨ pyInStr "renal" medical_history then
      (10,
       [{ name := "Kidney Disease", impact := "high"
          description := "Kidney function affects blood pressure regulation" }],
       [])
    else (0, [], [])
  let heartBlock : ℤ × List RiskFactor × List String :=
    if pyInStr "heart" medical_history ∨ pyInStr "cardiac" medical_history then
      (8,
       [{ name := "Heart Condition", impact := "high"
          description := "Existing heart condition increases risk" }],
       [])
    else (0, [], [])
  (ageBlock.1 + diabetesBlock.1 + kidneyBlock.1 + heartBlock.1,
   ageBlock.2.1 ++ diabetesBlock.2.1 ++ kidneyBlock.2.1 ++ heartBlock.2.1,
   ageBlock.2.2 ++ diabetesBlock.2.2 ++ kidneyBlock.2.2 ++ heartBlock.2.2)

/-- The overall risk label assigned from the capped score, and the
recommendation inserted at position 0 for that label. -/
def overallOf (risk_score : ℤ) : String × String :=
  if 70 ≤ risk_score then
    ("critical", "Schedule urgent appointment with your healthcare provider")
  else if 50 ≤ risk_score then
    ("high", "Schedule follow-up appointment within 1-2 weeks")
  else if 30 ≤ risk_score then
    ("moderate", "Continue regular monitoring and follow treatment plan")
  else
    ("low", "Maintain your healthy lifestyle habits")

end Risk

/-- `calculate_risk_assessment`. -/
def calculate_risk_assessment (patient_id : String) (patient : Option Patient)
    (readings : List Reading) (medications : List Medication)
    (lifestyle : List LifestyleEntry) : Except AnalysisErr RiskAssessment :=
  match patient with
  | none => .error (.patientNotFound patient_id)
  | some p =>
    let bp := Risk.bpSection readings
    let med := Risk.medicationSection medications
    let life := Risk.lifestyleSection lifestyle
    let demo := Risk.demographicsSection p
    let risk_score := min 100 (bp.1 + med.1 + life.1 + demo.1)
    let overall := Risk.overallOf risk_score
    .ok { overallRisk := overall.1
          riskScore := risk_score
          factors := bp.2.1 ++ med.2.1 ++ life.2.1 ++ demo.2.1
          recommendations :=
            (overall.2 :: (bp.2.2 ++ med.2.2 ++ life.2.2 ++ demo.2.2)).take 5 }

/-! ## `app/services/health_score.py` -/

structure HealthCategory where
  name : String
  score : ℤ
  status : String
deriving DecidableEq

structure HealthScore where
  overall : ℤ
  categories : List HealthCategory
  improvementAreas : List String
deriving DecidableEq

namespace Health

/-- `_score_to_status`. -/
def score_to_status (score : ℤ) : String :=
  if 85 ≤ score then "excellent"
  else if 70 ≤ score then "good"
  else if 50 ≤ score then "fair"
  else "poor"

/-- `_calculate_bp_score`. The if/elif classification chain is embedded as
filters with mutually exclusive compound predicates. -/
def calculate_bp_score (readings : List Reading) : ℤ :=
  if readings = [] then 50
  else
    let recent := readings.take 14
    let isCritical : Reading → Prop := fun r => 180 ≤ r.systolic ∨ 120 ≤ r.diastolic
    let isHigh : Reading → Prop := fun r => 140 ≤ r.systolic ∨ 90 ≤ r.diastolic
    let isElevated : Reading → Prop := fun r => 130 ≤ r.systolic ∨ 85 ≤ r.diastolic
    let critical := (recent.filter fun r => isCritical r).length
    let high := (recent.filter fun r => ¬isCritical r ∧ isHigh r).length
    let elevated :=
      (recent.filter fun r => ¬isCritical r ∧ ¬isHigh r ∧ isElevated r).length
    let normal :=
      (recent.filter fun r => ¬isCritical r ∧ ¬isHigh r ∧ ¬isElevated r).length
    let total := recent.length
    let score : ℚ :=
      ((normal : ℚ) / total) * 100 + ((elevated : ℚ) / total) * 60 +
        ((high : ℚ) / total) * 30 + ((critical : ℚ) / total) * 0
    let systolic_values := recent.map (·.systolic)
    let score2 : ℚ :=
      if systolic_values ≠ [] then
        let variability := pyMax systolic_values - pyMin systolic_values
        if variability < 15 then score + 5
        else if variability > 30 then score - 10
        else score
      else score
    max 0 (min 100 (pyRound score2))

/-- `_calculate_medication_score` (note: unlike the risk section, a stored
`adherence_rate` of 0 is kept, because the code tests `is not None`). -/
def calculate_medication_score (medications : List Medication) : ℤ :=
  if medications = [] then 85
  else
    let active_meds := medications.filter fun m => m.active.getD true
    if active_meds = [] then 85
    else
      let adherence_rates := active_meds.filterMap (·.adherence_rate)
      if adherence_rates = [] then 75
      else max 0 (min 100 (pyRound (avgQ adherence_rates)))

/-- Per-day score of `_calculate_lifestyle_score`. -/
def lifestyleDayScore (entry : LifestyleEntry) : ℤ :=
  let base : ℤ := 50
  let activity := pyOr entry.physical_activity 0
  let actPts : ℤ :=
    if 30 ≤ activity then 20
    else if 15 ≤ activity then 10
    else if 0 < activity then 5
    else 0
  let dietPts : ℤ :=
    if entry.diet_quality = some "healthy" then 15
    else if entry.diet_quality = some "moderate" then 8
    else 0
  let saltPts : ℤ :=
    if entry.salt_intake = some "low" then 10
    else if entry.salt_intake = some "moderate" then 5
    else if entry.salt_intake = some "high" then -5
    else 0
  let stressPts : ℤ :=
    if entry.stress_level = some "low" then 10
    else if entry.stress_level = some "moderate" then 5
    else if entry.stress_level = some "high" ∨ entry.stress_level = some "severe"
      then -5
    else 0
  let water := pyOr entry.water_intake 0
  let waterPts : ℤ :=
    if 8 ≤ water then 5
    else if 6 ≤ water then 3
    else 0
  min 100 (base + actPts + dietPts + saltPts + stressPts + waterPts)

/-- `_calculate_lifestyle_score`. -/
def calculate_lifestyle_score (lifestyle : List LifestyleEntry) : ℤ :=
  if lifestyle = [] then 50
  else
    let scores := (lifestyle.take 7).map lifestyleDayScore
    if scores = [] then 50
    else pyRound (avgQ (scores.map (fun s => (s : ℚ))))

/-- The count of the most frequent element of `times` (the value Python's
`times.count(max(set(times), key=times.count))` yields, independently of
how `max` breaks ties over the set). -/
def maxCountOf (times : List String) : ℕ :=
  (times.map fun t => times.count t).foldr max 0

/-- `_calculate_monitoring_score`. -/
def calculate_monitoring_score (readings : List Reading) (days : ℕ) : ℤ :=
  if readings = [] then 0
  else
    let coverage : ℚ := ((readings.length : ℚ) / (days : ℚ)) * 100
    let times := (readings.filterMap (·.time_of_day)).filter (· ≠ "")
    let coverage2 :=
      if times ≠ [] then
        coverage + ((maxCountOf times : ℚ) / (times.length : ℚ)) * 10
      else coverage
    max 0 (min 100 (pyRound coverage2))

/-- Per-day score of `_calculate_sleep_score`. -/
def sleepDayScore (entry : LifestyleEntry) : ℤ :=
  let duration := pyOr entry.sleep_duration 7
  let durPts : ℤ :=
    if 7 ≤ duration ∧ duration ≤ 9 then 30
    else if (6 ≤ duration ∧ duration < 7) ∨ (9 < duration ∧ duration ≤ 10) then 20
    else if 5 ≤ duration ∧ duration < 6 then 10
    else 0
  let qualPts : ℤ :=
    if entry.sleep_quality = some "excellent" then 20
    else if entry.sleep_quality = some "good" then 15
    else if entry.sleep_quality = some "fair" then 8
    else 0
  min 100 (50 + durPts + qualPts)

/-- `_calculate_sleep_score`. -/
def calculate_sleep_score (lifestyle : List LifestyleEntry) : ℤ :=
  if lifestyle = [] then 50
  else
    let scores := (lifestyle.take 7).map sleepDayScore
    if scores = [] then 50
    else pyRound (avgQ (scores.map (fun s => (s : ℚ))))

/-- The weight dictionary of `calculate_health_score` (`weights.get(name, 0.1)`). -/
def weightOf (name : String) : ℚ :=
  if name = "Blood Pressure Control" then 35/100
  else if name = "Medication Adherence" then 25/100
  else if name = "Lifestyle Factors" then 20/100
  else if name = "Monitoring Consistency" then 10/100
  else if name = "Sleep & Recovery" then 10/100
  else 10/100

end Health

/-- `calculate_health_score` (readings fetched for `days`, default 30). -/
def calculate_health_score (patient_id : String) (patient : Option Patient)
    (readings : List Reading) (medications : List Medication)
    (lifestyle : List LifestyleEntry) (days : ℕ := 30) :
    Except AnalysisErr HealthScore :=
  match patient with
  | none => .error (.patientNotFound patient_id)
  | some _ =>
    let bp_score := Health.calculate_bp_score readings
    let med_score := Health.calculate_medication_score medications
    let lifestyle_score := Health.calculate_lifestyle_score lifestyle
    let monitoring_score := Health.calculate_monitoring_score readings days
    let baseCats : List HealthCategory :=
      [{ name := "Blood Pressure Control", score := bp_score
         status := Health.score_to_status bp_score },
       { name := "Medication Adherence", score := med_score
         status := Health.score_to_status med_score },
       { name := "Lifestyle Factors", score := lifestyle_score
         status := Health.score_to_status lifestyle_score },
       { name := "Monitoring Consistency", score := monitoring_score
         status := Health.score_to_status monitoring_score }]
    let sleepCats : List HealthCategory :=
      if lifestyle ≠ [] then
        let sleep_score := Health.calculate_sleep_score lifestyle
        [{ name := "Sleep & Recovery", score := sleep_score
           status := Health.score_to_status sleep_score }]
      else []
    let categories := baseCats ++ sleepCats
    let improvement_areas :=
      (if bp_score < 70 then ["Focus on consistent blood pressure management"] else []) ++
      (if bp_score < 50 then ["Consult your doctor about adjusting treatment"] else []) ++
      (if med_score < 85 then ["Set reminders to improve medication consistency"] else []) ++
      (if lifestyle_score < 70 then ["Increase physical activity to 150 min/week"] else []) ++
      (if lifestyle_score < 60 then ["Reduce sodium intake below 2000mg/day"] else []) ++
      (if monitoring_score < 70 then ["Monitor blood pressure more regularly"] else []) ++
      (if lifestyle ≠ [] ∧ Health.calculate_sleep_score lifestyle < 70 then
        ["Improve sleep quality and duration"] else [])
    let total_weight := (categories.map fun c => Health.weightOf c.name).sum
    let overall :=
      pyRound ((categories.map fun c => (c.score : ℚ) * Health.weightOf c.name).sum
        / total_weight)
    .ok { overall := overall
          categories := categories
          improvementAreas := improvement_areas.take 5 }

/-! ## `app/services/predictions.py` -/

structure TrendPrediction where
  metric : String
  currentValue : ℚ
  predictedValue : ℚ
  confidence : ℤ
  timeframe : String
  trend : String
deriving DecidableEq

namespace Predictions

/-- Stable sort by `measurement_date` (Python `sorted` with a key). -/
def sortedByDate (readings : List Reading) : List Reading :=
  readings.insertionSort fun a b => a.measurement_date ≤ b.measurement_date

/-- `r[metric_key]` for the three metric keys used by the service
(`pulse` callers guarantee the field is present). -/
def readVal (metric_key : String) (r : Reading) : ℚ :=
  if metric_key = "systolic" then r.systolic
  else if metric_key = "diastolic" then r.diastolic
  else r.pulse.getD 0

/-- Least-squares slope over `x = 0, 1, ..., n-1` (0 when the denominator
vanishes, as in the code). -/
def regressionSlope (values : List ℚ) : ℚ :=
  let n := values.length
  let xs := (List.range n).map fun i => (i : ℚ)
  let x_mean := avgQ xs
  let y_mean := avgQ values
  let numerator := ((xs.zip values).map fun p => (p.1 - x_mean) * (p.2 - y_mean)).sum
  let denominator := (xs.map fun xi => (xi - x_mean) ^ 2).sum
  if denominator = 0 then 0 else numerator / denominator

/-- `intercept = y_mean - slope * x_mean`. -/
def regressionIntercept (values : List ℚ) : ℚ :=
  let xs := (List.range values.length).map fun i => (i : ℚ)
  avgQ values - regressionSlope values * avgQ xs

/-- The regression residuals `y - y_pred` over `x = 0, ..., n-1`. -/
def residualsOf (values : List ℚ) : List ℚ :=
  let slope := regressionSlope values
  let intercept := regressionIntercept values
  ((List.range values.length).zip values).map fun p =>
    p.2 - (intercept + slope * (p.1 : ℚ))

/-- `r_squared = 1 - ss_res / ss_tot` when `ss_tot > 0`, else 0. -/
def rSquared (values : List ℚ) : ℚ :=
  let y_mean := avgQ values
  let ss_res := ((residualsOf values).map fun r => r ^ 2).sum
  let ss_tot := (values.map fun y => (y - y_mean) ^ 2).sum
  if ss_tot > 0 then 1 - ss_res / ss_tot else 0

/-- The per-metric plausibility clamp applied to the predicted value. -/
def clampMetric (metric_key : String) (v : ℚ) : ℚ :=
  if metric_key = "systolic" then max 80 (min 200 v)
  else if metric_key = "diastolic" then max 50 (min 130 v)
  else if metric_key = "pulse" then max 40 (min 150 v)
  else v

/-- `readings_per_day`: readings count over the day span of the sorted
data (`(last - first).days or 1`). -/
def readingsPerDay (sorted_readings : List Reading) : ℚ :=
  if 2 ≤ sorted_readings.length then
    let first := ((sorted_readings.head?.map (·.measurement_date)).getD 0)
    let last := ((sorted_readings.getLast?.map (·.measurement_date)).getD 0)
    let days_span : ℤ := if last - first = 0 then 1 else last - first
    (sorted_readings.length : ℚ) / (days_span : ℚ)
  else 1

/-- The trend label from the per-day slope (`daily_change`). -/
def trendOf (metric_key : String) (daily_change : ℚ) : String :=
  if metric_key = "systolic" ∨ metric_key = "diastolic" then
    if daily_change < -(3/10) then "improving"
    else if daily_change > 3/10 then "worsening"
    else "stable"
  else
    if |daily_change| < 1/2 then "stable"
    else if daily_change < 0 then "improving"
    else "worsening"

end Predictions

/-- `_calculate_metric_prediction`. -/
def calculate_metric_prediction (readings : List Reading)
    (metric_key metric_name : String) (timeframe_days : ℕ := 30) :
    TrendPrediction :=
  let sorted_readings := Predictions.sortedByDate readings
  let values := sorted_readings.map (Predictions.readVal metric_key)
  let n := values.length
  let recent_values := if 7 ≤ values.length then values.drop (values.length - 7)
    else values
  let current_value := avgQ recent_values
  let slope := Predictions.regressionSlope values
  let intercept := Predictions.regressionIntercept values
  let readings_per_day := Predictions.readingsPerDay sorted_readings
  let future_x := (n : ℚ) + (timeframe_days : ℚ) * readings_per_day
  let predicted_value := intercept + slope * future_x
  let daily_change := slope * readings_per_day
  let trend := Predictions.trendOf metric_key daily_change
  let confidence : ℤ :=
    if 1 < n then
      let data_factor := min 1 ((n : ℚ) / 30)
      pyInt (max 30 (min 95 (Predictions.rSquared values * 100 * data_factor)))
    else 30
  { metric := metric_name
    currentValue := pyRound1 current_value
    predictedValue := pyRound1 (Predictions.clampMetric metric_key predicted_value)
    confidence := confidence
    timeframe := s!"{timeframe_days} days"
    trend := trend }

/-- `calculate_predictions`. -/
def calculate_predictions (patient_id : String) (patient : Option Patient)
    (readings : List Reading) : Except AnalysisErr (List TrendPrediction) :=
  match patient with
  | none => .error (.patientNotFound patient_id)
  | some _ =>
    if readings.length < min_readings_for_analysis then
      .error (.insufficientData readings.length min_readings_for_analysis)
    else
      let systolic_prediction :=
        calculate_metric_prediction readings "systolic" "Systolic BP" 30
      let diastolic_prediction :=
        calculate_metric_prediction readings "diastolic" "Diastolic BP" 30
      let readings_with_pulse := readings.filter fun r => pyTruthy r.pulse
      if 5 ≤ readings_with_pulse.length then
        .ok [systolic_prediction, diastolic_prediction,
             calculate_metric_prediction readings_with_pulse "pulse" "Heart Rate" 30]
      else
        .ok [systolic_prediction, diastolic_prediction]

/-! ## `app/services/forecast.py`

`std_error` is `np.std(residuals)` (a real square root, 10 when there are
at most 2 residuals); since only its square is rational it is passed to
the embedding as a parameter, constrained in the theorems by
`std_error ^ 2 = npVariance (residualsOf values)`. -/

structure HistoricalDataPoint where
  date : ℤ
  value : ℚ
deriving DecidableEq

structure ForecastDataPoint where
  date : ℤ
  predicted : ℚ
  upperBound : ℚ
  lowerBound : ℚ
deriving DecidableEq

structure TimeSeriesForecast where
  metric : String
  historical : List HistoricalDataPoint
  forecast : List ForecastDataPoint
deriving DecidableEq

namespace Forecast

/-- `np.std(l) ^ 2`: the population variance of a list. -/
def npVariance (l : List ℚ) : ℚ :=
  let mean := avgQ l
  avgQ (l.map fun v => (v - mean) ^ 2)

/-- `r.get(metric)` in `_build_historical_data`. -/
def readValOpt (metric : String) (r : Reading) : Option ℚ :=
  if metric = "systolic" then some r.systolic
  else if metric = "diastolic" then some r.diastolic
  else if metric = "pulse" then r.pulse
  else none

/-- The confidence margin for forecast day `i` of `forecast_days`:
`1.96 * std_error * (1 + (i / forecast_days) * 0.5)`. -/
def margin (std_error : ℚ) (i forecast_days : ℕ) : ℚ :=
  (196/100) * std_error * (1 + ((i : ℚ) / (forecast_days : ℚ)) * (1/2))

/-- Per-metric clamp bounds: (predicted low, predicted high, upper cap,
lower floor); the final `else` branch of the code is the pulse case. -/
def clamps (metric : String) : ℚ × ℚ × ℚ × ℚ :=
  if metric = "systolic" then (80, 200, 220, 70)
  else if metric = "diastolic" then (50, 130, 150, 40)
  else (40, 150, 180, 30)

end Forecast

/-- `_build_historical_data`: group readings by day, average the metric
values present, round to one decimal, ascending by date. -/
def build_historical_data (readings : List Reading) (metric : String) :
    List HistoricalDataPoint :=
  let dated := readings.filterMap fun r =>
    (Forecast.readValOpt metric r).map fun v => (r.measurement_date, v)
  let dates := (dated.map (·.1)).dedup.insertionSort (· ≤ ·)
  dates.map fun d =>
    let values := dated.filterMap fun p => if p.1 = d then some p.2 else none
    { date := d, value := pyRound1 (avgQ values) }

/-- `_generate_forecast_points`. -/
def generate_forecast_points (historical : List HistoricalDataPoint)
    (forecast_days : ℕ) (metric : String) (std_error : ℚ) :
    List ForecastDataPoint :=
  let values := historical.map (·.value)
  let n := values.length
  let slope := Predictions.regressionSlope values
  let intercept := Predictions.regressionIntercept values
  let last_date := (historical.getLast?.map (·.date)).getD 0
  (List.range forecast_days).map fun j =>
    let i : ℕ := j + 1
    let x_future : ℚ := (n : ℚ) + (i : ℚ) - 1
    let predicted_raw := intercept + slope * x_future
    let m := Forecast.margin std_error i forecast_days
    let c := Forecast.clamps metric
    let predicted := max c.1 (min c.2.1 predicted_raw)
    let upper := min c.2.2.1 (predicted + m)
    let lower := max c.2.2.2 (predicted - m)
    { date := last_date + i
      predicted := pyRound1 predicted
      upperBound := pyRound1 upper
      lowerBound := pyRound1 lower }

/-- `generate_forecast` (the `std_error` the body computes from the built
historical data is a parameter, see above). -/
def generate_forecast (patient_id : String) (patient : Option Patient)
    (readings : List Reading) (metric : String) (forecast_days : ℕ)
    (std_error : ℚ) : Except AnalysisErr TimeSeriesForecast :=
  let metric1 :=
    if metric = "systolic" ∨ metric = "diastolic" ∨ metric = "pulse" then metric
    else "systolic"
  let metric_name :=
    if metric1 = "systolic" then "Systolic BP"
    else if metric1 = "diastolic" then "Diastolic BP"
    else "Heart Rate"
  match patient with
  | none => .error (.patientNotFound patient_id)
  | some _ =>
    if readings.length < min_readings_for_analysis then
      .error (.insufficientData readings.length min_readings_for_analysis)
    else
      let historical := build_historical_data readings metric1
      if historical.length < 7 then
        .error (.insufficientDailyData historical.length 7)
      else
        .ok { metric := metric_name
              historical := historical
              forecast :=
                generate_forecast_points historical forecast_days metric1 std_error }

/-! ## `app/services/correlations.py`

The Pearson coefficient is `num / sqrt denSq`; since the square root is
irrational in general, a reported correlation is represented exactly by
the pair `(num, denSq)` with `denSq > 0`. Every test the code performs on
the coefficient is embedded as the equivalent exact comparison obtained
by squaring: `abs(corr) < t  ↔  t² * denSq > num²` (for `t ≥ 0`,
`denSq > 0`). -/

/-- Exact representation of a Pearson coefficient `num / sqrt denSq`. -/
structure PearsonParts where
  num : ℚ
  denSq : ℚ
deriving DecidableEq

/-- A reported correlation; `parts` stands for the code's
`round(corr_value, 3)` float (rounding is not representable exactly). -/
structure Correlation where
  factor1 : String
  factor2 : String
  parts : PearsonParts
  strength : String
  direction : String
deriving DecidableEq

structure CorrelationAnalysis where
  correlations : List Correlation
deriving DecidableEq

namespace Correlations

/-- `n * Σxy - Σx * Σy` over the paired samples. -/
def pearsonNum (pairs : List (ℚ × ℚ)) : ℚ :=
  let n : ℚ := pairs.length
  let sum_x := (pairs.map (·.1)).sum
  let sum_y := (pairs.map (·.2)).sum
  let sum_xy := (pairs.map fun p => p.1 * p.2).sum
  n * sum_xy - sum_x * sum_y

/-- `(n * Σx² - (Σx)²) * (n * Σy² - (Σy)²)`: the square of the Pearson
denominator. -/
def pearsonDenSq (pairs : List (ℚ × ℚ)) : ℚ :=
  let n : ℚ := pairs.length
  let sum_x := (pairs.map (·.1)).sum
  let sum_y := (pairs.map (·.2)).sum
  let sum_x2 := (pairs.map fun p => p.1 ^ 2).sum
  let sum_y2 := (pairs.map fun p => p.2 ^ 2).sum
  (n * sum_x2 - sum_x ^ 2) * (n * sum_y2 - sum_y ^ 2)

/-- The pairs `[(outcome, factor) for date in dates if both present]`:
the input rows are the per-date `(outcome, factor)` option pairs. -/
def pairsOf (rows : List (Option ℚ × Option ℚ)) : List (ℚ × ℚ) :=
  rows.filterMap fun p =>
    match p with
    | (some a, some b) => some (a, b)
    | _ => none

end Correlations

/-- `_calculate_factor_correlation`: `None` when fewer than 5 pairs, when
`denominator_sq ≤ 0`, when the (dead, given the previous guard) sqrt is 0,
or when `abs(correlation) < 0.1` — embedded exactly as
`100 * num² < denSq`; otherwise the coefficient `num / sqrt denSq`. -/
def calculate_factor_correlation (rows : List (Option ℚ × Option ℚ)) :
    Option PearsonParts :=
  let pairs := Correlations.pairsOf rows
  if pairs.length < 5 then none
  else
    let numerator := Correlations.pearsonNum pairs
    let denominator_sq := Correlations.pearsonDenSq pairs
    if denominator_sq ≤ 0 then none
    else if denominator_sq = 0 then none
    else if 100 * numerator ^ 2 < denominator_sq then none
    else some ⟨numerator, denominator_sq⟩

namespace Correlations

/-- The per-day joined data of `_build_daily_data`. -/
structure DayData where
  systolic : Option ℚ := none
  diastolic : Option ℚ := none
  pulse : Option ℚ := none
  physical_activity : Option ℚ := none
  sleep_duration : Option ℚ := none
  stress_level : Option String := none
  water_intake : Option ℚ := none
  weight : Option ℚ := none
  sodium_mg : Option ℚ := none
  caffeine_intake : Option ℚ := none
  alcohol_consumption : Option ℚ := none
  salt_intake : Option String := none
deriving DecidableEq

/-- Last set value of a numeric lifestyle field for day `d` (later list
entries overwrite earlier ones, as repeated dict stores do). -/
def lastNum (lifestyle : List LifestyleEntry) (d : ℤ)
    (sel : LifestyleEntry → Option ℚ) : Option ℚ :=
  ((lifestyle.filter fun e => e.entry_date = some d).filterMap sel).getLast?

/-- Last set value of a string lifestyle field for day `d`. -/
def lastStr (lifestyle : List LifestyleEntry) (d : ℤ)
    (sel : LifestyleEntry → Option String) : Option String :=
  ((lifestyle.filter fun e => e.entry_date = some d).filterMap sel).getLast?

/-- The joined record of `_build_daily_data` for one day. -/
def dayDataAt (readings : List Reading) (lifestyle : List LifestyleEntry)
    (d : ℤ) : DayData :=
  let day_readings := readings.filter fun r => r.measurement_date = d
  let pulse_readings := (day_readings.filter fun r => pyTruthy r.pulse).filterMap (·.pulse)
  { systolic :=
      if day_readings ≠ [] then some (avgQ (day_readings.map (·.systolic))) else none
    diastolic :=
      if day_readings ≠ [] then some (avgQ (day_readings.map (·.diastolic))) else none
    pulse := if pulse_readings ≠ [] then some (avgQ pulse_readings) else none
    physical_activity := lastNum lifestyle d (·.physical_activity)
    sleep_duration := lastNum lifestyle d (·.sleep_duration)
    stress_level := lastStr lifestyle d (·.stress_level)
    water_intake := lastNum lifestyle d (·.water_intake)
    weight := lastNum lifestyle d (·.weight)
    sodium_mg := lastNum lifestyle d (·.sodium_mg)
    caffeine_intake := lastNum lifestyle d (·.caffeine_intake)
    alcohol_consumption := lastNum lifestyle d (·.alcohol_consumption)
    salt_intake := lastStr lifestyle d (·.salt_intake) }

/-- The days present in the daily map: days with a reading and days with a
lifestyle entry. -/
def dailyDates (readings : List Reading) (lifestyle : List LifestyleEntry) :
    List ℤ :=
  ((readings.map (·.measurement_date)) ++
    (lifestyle.filterMap (·.entry_date))).dedup

/-- `stress_map` applied to a stress level string. -/
def stressNum (s : Option String) : Option ℚ :=
  match s with
  | some "low" => some 1
  | some "moderate" => some 2
  | some "high" => some 3
  | some "severe" => some 4
  | _ => none

/-- `_correlation_strength`, exactly on the squared coefficient:
`abs(corr) ≥ t ↔ num² * 100 ≥ t² * 100 * denSq` for `denSq > 0`. -/
def correlation_strength (p : PearsonParts) : String :=
  if 49 * p.denSq ≤ 100 * p.num ^ 2 then "strong"
  else if 16 * p.denSq ≤ 100 * p.num ^ 2 then "moderate"
  else "weak"

/-- Correlation of `abs` comparison used for the final descending sort:
`|a| ≥ |b| ↔ a.num² * b.denSq ≥ b.num² * a.denSq` (both `denSq > 0`). -/
def absGe (a b : PearsonParts) : Bool :=
  b.num ^ 2 * a.denSq ≤ a.num ^ 2 * b.denSq

end Correlations

/-- `analyze_correlations`. `_calculate_stress_correlation` duplicates the
Pearson pipeline verbatim on the stress-mapped pairs, so it is embedded
through the same `calculate_factor_correlation`. -/
def analyze_correlations (patient_id : String) (patient : Option Patient)
    (readings : List Reading) (lifestyle : List LifestyleEntry) :
    Except AnalysisErr CorrelationAnalysis :=
  match patient with
  | none => .error (.patientNotFound patient_id)
  | some _ =>
    if readings.length < min_readings_for_analysis then
      .error (.insufficientData readings.length min_readings_for_analysis)
    else
      let allDates := Correlations.dailyDates readings lifestyle
      if allDates.length < 5 then
        .error (.insufficientDailyData allDates.length 5)
      else
        let dates := allDates.insertionSort (· ≤ ·)
        let day := Correlations.dayDataAt readings lifestyle
        let rowsFor : (Correlations.DayData → Option ℚ) →
            List (Option ℚ × Option ℚ) := fun sel =>
          dates.map fun d => ((day d).systolic, sel (day d))
        let candidates : List (String × String × Option PearsonParts) :=
          [("Sodium Intake", "Systolic BP",
            calculate_factor_correlation (rowsFor (·.sodium_mg))),
           ("Physical Activity", "Systolic BP",
            calculate_factor_correlation (rowsFor (·.physical_activity))),
           ("Sleep Duration", "Systolic BP",
            calculate_factor_correlation (rowsFor (·.sleep_duration))),
           ("Stress Level", "Systolic BP",
            calculate_factor_correlation
              (rowsFor fun dd => Correlations.stressNum dd.stress_level)),
           ("Body Weight", "Systolic BP",
            calculate_factor_correlation (rowsFor (·.weight))),
           ("Water Intake", "Systolic BP",
            calculate_factor_correlation (rowsFor (·.water_intake))),
           ("Caffeine Intake", "Systolic BP",
            calculate_factor_correlation (rowsFor (·.caffeine_intake))),
           ("Alcohol Consumption", "Systolic BP",
            calculate_factor_correlation (rowsFor (·.alcohol_consumption))),
           ("Diastolic BP", "Systolic BP",
            calculate_factor_correlation (rowsFor (·.diastolic))),
           ("Heart Rate", "Systolic BP",
            calculate_factor_correlation (rowsFor (·.pulse)))]
        let correlations := candidates.filterMap fun c =>
          match c.2.2 with
          | none => none
          | some p =>
            some { factor1 := c.1
                   factor2 := c.2.1
                   parts := p
                   strength := Correlations.correlation_strength p
                   direction := if 0 < p.num then "positive" else "negative" }
        .ok { correlations :=
                correlations.insertionSort fun a b =>
                  Correlations.absGe a.parts b.parts }

/-! ## `app/services/patterns.py` -/

structure Pattern where
  type : String
  frequency : String
  severity : String
  description : String
deriving DecidableEq

namespace Patterns

/-- Append `x` to the group of key `k`, preserving first-appearance order
of keys (Python `defaultdict` insertion order). -/
def addToGroups (k : String) (x : Reading) :
    List (String × List Reading) → List (String × List Reading)
  | [] => [(k, [x])]
  | (k1, xs) :: rest =>
    if k1 = k then (k1, xs ++ [x]) :: rest
    else (k1, xs) :: addToGroups k x rest

/-- Group readings by a string key, in insertion order. -/
def groupByKey (key : Reading → String) (l : List Reading) :
    List (String × List Reading) :=
  l.foldl (fun g x => addToGroups (key x) x g) []

/-- Association-list lookup with default. -/
def lookupD (l : List (String × ℚ)) (k : String) (d : ℚ) : ℚ :=
  ((l.find? fun p => p.1 = k).map (·.2)).getD d

/-- Association-list membership test (Python `k in dict`). -/
def hasKey (l : List (String × ℚ)) (k : String) : Bool :=
  (l.find? fun p => p.1 = k).isSome

/-- First entry of maximal value, in iteration order (Python
`max(d, key=d.get)` returns the first maximum). -/
def firstArgmax : List (String × ℚ) → Option (String × ℚ)
  | [] => none
  | p :: rest =>
    match firstArgmax rest with
    | none => some p
    | some q => if q.2 > p.2 then some q else some p

/-- First entry of minimal value, in iteration order. -/
def firstArgmin : List (String × ℚ) → Option (String × ℚ)
  | [] => none
  | p :: rest =>
    match firstArgmin rest with
    | none => some p
    | some q => if q.2 < p.2 then some q else some p

/-- `date.strftime("%A")` for a day number (day 0, 1970-01-01, was a
Thursday). -/
def dayName (d : ℤ) : String :=
  ["Thursday", "Friday", "Saturday", "Sunday",
   "Monday", "Tuesday", "Wednesday"].getD (d % 7).toNat "Thursday"

/-- `_analyze_time_patterns` (patterns variant). -/
def analyze_time_patterns (readings : List Reading) : List Pattern :=
  let time_groups := groupByKey (fun r => r.time_of_day.getD "unknown") readings
  let time_averages : List (String × ℚ) :=
    (time_groups.filter fun g => 3 ≤ g.2.length).map fun g =>
      (g.1, avgQ (g.2.map (·.systolic)))
  if 2 ≤ time_averages.length then
    let morning_avg := lookupD time_averages "morning" 0
    let evening_avg :=
      lookupD time_averages "evening" (lookupD time_averages "night" 0)
    -- `if morning_avg and evening_avg:` — float truthiness
    if morning_avg ≠ 0 ∧ evening_avg ≠ 0 then
      if morning_avg - evening_avg > 15 then
        let morningGroup :=
          ((time_groups.find? fun g => g.1 = "morning").map (·.2)).getD []
        let total_mornings := morningGroup.length
        let high_mornings := (morningGroup.filter fun r => 140 ≤ r.systolic).length
        let pct : ℚ := ((high_mornings : ℚ) / (total_mornings : ℚ)) * 100
        let frequency :=
          if total_mornings > 0 then
            s!"{fmtF0 pct}% of mornings"
          else "frequently"
        let morning_entry := lookupD time_averages "morning" 0
        let diff := morning_avg - evening_avg
        [{ type := "Morning Spike"
           frequency := frequency
           severity := if morning_avg - evening_avg < 25 then "moderate" else "high"
           description := s!"Blood pressure averages {fmtF0 morning_avg}/{fmtF0 morning_entry} mmHg in the morning, {fmtF0 diff} points higher than evening" }]
      else if evening_avg - morning_avg > 15 then
        [{ type := "Evening Elevation"
           frequency := "Most evenings"
           severity := "moderate"
           description := s!"Blood pressure tends to rise in the evening by {fmtF0 (evening_avg - morning_avg)} mmHg compared to morning" }]
      else []
    else []
  else []

/-- `_analyze_weekly_patterns`. -/
def analyze_weekly_patterns (readings : List Reading) : List Pattern :=
  let day_groups := groupByKey (fun r => dayName r.measurement_date) readings
  let day_averages : List (String × ℚ) :=
    (day_groups.filter fun g => 2 ≤ g.2.length).map fun g =>
      (g.1, avgQ (g.2.map (·.systolic)))
  if 3 ≤ day_averages.length then
    let _overall_avg := avgQ (day_averages.map (·.2))
    let weekdays := ["Monday", "Tuesday", "Wednesday", "Thursday", "Friday"]
    let weekend := ["Saturday", "Sunday"]
    let weekday_avgs := (weekdays.filter (hasKey day_averages ·)).map
      fun d => lookupD day_averages d 0
    let weekend_avgs := (weekend.filter (hasKey day_averages ·)).map
      fun d => lookupD day_averages d 0
    let weekBlock :=
      if weekday_avgs ≠ [] ∧ weekend_avgs ≠ [] then
        let weekday_avg := avgQ weekday_avgs
        let weekend_avg := avgQ weekend_avgs
        if weekend_avg - weekday_avg > 8 then
          [{ type := "Weekend Effect"
             frequency := "Most weekends"
             severity := "low"
             description := s!"Blood pressure tends to be {fmtF0 (weekend_avg - weekday_avg)} mmHg higher on weekends, possibly due to diet or activity changes" }]
        else if weekday_avg - weekend_avg > 8 then
          [{ type := "Workweek Stress"
             frequency := "During work days"
             severity := "moderate"
             description := s!"Blood pressure averages {fmtF0 (weekday_avg - weekend_avg)} mmHg higher during weekdays, suggesting work-related stress" }]
        else []
      else []
    let variationBlock :=
      if day_averages ≠ [] then
        let highest := (firstArgmax day_averages).getD ("", 0)
        let lowest := (firstArgmin day_averages).getD ("", 0)
        if highest.2 - lowest.2 > 12 then
          [{ type := "Weekly Variation"
             frequency := s!"Every {highest.1}"
             severity := "low"
             description := s!"{highest.1}s tend to have higher readings ({fmtF0 highest.2} mmHg) compared to {lowest.1}s ({fmtF0 lowest.2} mmHg)" }]
        else []
      else []
    weekBlock ++ variationBlock
  else []

/-- `_analyze_position_patterns`. -/
def analyze_position_patterns (readings : List Reading) : List Pattern :=
  let position_groups := groupByKey (fun r => r.position.getD "unknown")
    (readings.filter fun r => r.position.getD "unknown" ≠ "unknown")
  let position_averages : List (String × ℚ) :=
    (position_groups.filter fun g => 3 ≤ g.2.length).map fun g =>
      (g.1, avgQ (g.2.map (·.systolic)))
  if hasKey position_averages "sitting" ∧ hasKey position_averages "standing" then
    let diff := lookupD position_averages "standing" 0 -
      lookupD position_averages "sitting" 0
    if diff > 10 then
      [{ type := "Orthostatic Variation"
         frequency := "When standing"
         severity := "moderate"
         description := s!"Blood pressure increases by {fmtF0 diff} mmHg when standing compared to sitting - discuss with your doctor" }]
    else if diff < -15 then
      [{ type := "Orthostatic Hypotension Risk"
         frequency := "When standing"
         severity := "high"
         description := s!"Blood pressure drops by {fmtF0 |diff|} mmHg when standing - this may cause dizziness" }]
    else []
  else []

/-- `lifestyle_by_date`: one entry per (present) date, later entries
overwriting earlier ones, keys in first-appearance order. -/
def lifestyleByDate (lifestyle : List LifestyleEntry) :
    List (ℤ × LifestyleEntry) :=
  let datesInOrder := (lifestyle.filterMap (·.entry_date)).dedup
  datesInOrder.filterMap fun d =>
    ((lifestyle.filter fun e => e.entry_date = some d).getLast?).map
      fun e => (d, e)

/-- `_analyze_lifestyle_patterns`. -/
def analyze_lifestyle_patterns (readings : List Reading)
    (lifestyle : List LifestyleEntry) : List Pattern :=
  if lifestyle = [] then []
  else
    let byDate := lifestyleByDate lifestyle
    let dayReadings : ℤ → List Reading := fun d =>
      readings.filter fun r => r.measurement_date = d
    let withReadings := byDate.filter fun p => dayReadings p.1 ≠ []
    let high_stress_readings := withReadings.flatMap fun p =>
      if p.2.stress_level = some "high" ∨ p.2.stress_level = some "severe" then
        dayReadings p.1
      else []
    let low_stress_readings := withReadings.flatMap fun p =>
      if ¬(p.2.stress_level = some "high" ∨ p.2.stress_level = some "severe") ∧
          p.2.stress_level = some "low" then
        dayReadings p.1
      else []
    let stressBlock :=
      if 3 ≤ high_stress_readings.length ∧ 3 ≤ low_stress_readings.length then
        let high_avg := avgQ (high_stress_readings.map (·.systolic))
        let low_avg := avgQ (low_stress_readings.map (·.systolic))
        if high_avg - low_avg > 10 then
          [{ type := "Stress Response"
             frequency := "On high-stress days"
             severity := "moderate"
             description := s!"Blood pressure averages {fmtF0 (high_avg - low_avg)} mmHg higher on days with high stress" }]
        else []
      else []
    let exercise_days := withReadings.flatMap fun p =>
      if 30 ≤ pyOr p.2.physical_activity 0 then dayReadings p.1 else []
    let no_exercise_days := withReadings.flatMap fun p =>
      if ¬(30 ≤ pyOr p.2.physical_activity 0) ∧ pyOr p.2.physical_activity 0 < 10
        then dayReadings p.1
      else []
    let exerciseBlock :=
      if 3 ≤ exercise_days.length ∧ 3 ≤ no_exercise_days.length then
        let exercise_avg := avgQ (exercise_days.map (·.systolic))
        let no_exercise_avg := avgQ (no_exercise_days.map (·.systolic))
        if no_exercise_avg - exercise_avg > 5 then
          [{ type := "Exercise Benefit"
             frequency := "On active days"
             severity := "low"
             description := s!"Blood pressure is {fmtF0 (no_exercise_avg - exercise_avg)} mmHg lower on days with 30+ minutes of exercise" }]
        else []
      else []
    let poor_sleep_readings := withReadings.flatMap fun p =>
      if pyOr p.2.sleep_duration 7 < 6 then dayReadings p.1 else []
    let good_sleep_readings := withReadings.flatMap fun p =>
      if ¬(pyOr p.2.sleep_duration 7 < 6) ∧ 7 ≤ pyOr p.2.sleep_duration 7 then
        dayReadings p.1
      else []
    let sleepBlock :=
      if 2 ≤ poor_sleep_readings.length ∧ 2 ≤ good_sleep_readings.length then
        let poor_avg := avgQ (poor_sleep_readings.map (·.systolic))
        let good_avg := avgQ (good_sleep_readings.map (·.systolic))
        if poor_avg - good_avg > 8 then
          [{ type := "Sleep Impact"
             frequency := "After poor sleep"
             severity := "moderate"
             description := s!"Blood pressure is {fmtF0 (poor_avg - good_avg)} mmHg higher after nights with less than 6 hours of sleep" }]
        else []
      else []
    stressBlock ++ exerciseBlock ++ sleepBlock

/-- `_analyze_variability_patterns`. The tests `std_dev > 15` and
`std_dev < 8` are embedded exactly as `variance > 225` / `variance < 64`
(`std_dev = sqrt variance ≥ 0`); the rendered standard deviation is
computed by `fmtSqrt1` from the exact variance. -/
def analyze_variability_patterns (readings : List Reading) : List Pattern :=
  if readings.length < 7 then []
  else
    let systolic_values := (readings.take 14).map (·.systolic)
    let variance := Forecast.npVariance systolic_values
    if variance > 225 then
      [{ type := "High Variability"
         frequency := s!"Std dev: {fmtSqrt1 variance} mmHg"
         severity := "high"
         description := "Your readings show high variability which may indicate inconsistent measurement technique or underlying issues" }]
    else if variance < 64 then
      [{ type := "Consistent Readings"
         frequency := s!"Std dev: {fmtSqrt1 variance} mmHg"
         severity := "low"
         description := "Your blood pressure readings are consistent, indicating good measurement technique" }]
    else []

/-- `severity_order.get(x.severity, 3)`. -/
def severityOrd (s : String) : ℕ :=
  if s = "high" then 0 else if s = "moderate" then 1
  else if s = "low" then 2 else 3

end Patterns

/-- `analyze_patterns`. -/
def analyze_patterns (patient_id : String) (patient : Option Patient)
    (readings : List Reading) (lifestyle : List LifestyleEntry) :
    Except AnalysisErr (List Pattern) :=
  match patient with
  | none => .error (.patientNotFound patient_id)
  | some _ =>
    if readings.length < min_readings_for_analysis then
      .error (.insufficientData readings.length min_readings_for_analysis)
    else
      let patterns :=
        Patterns.analyze_time_patterns readings ++
        Patterns.analyze_weekly_patterns readings ++
        Patterns.analyze_position_patterns readings ++
        (if lifestyle ≠ [] then
          Patterns.analyze_lifestyle_patterns readings lifestyle else []) ++
        Patterns.analyze_variability_patterns readings
      .ok ((patterns.insertionSort fun a b =>
        Patterns.severityOrd a.severity ≤ Patterns.severityOrd b.severity).take 10)

/-! ## Concrete scenario inputs used by the claims -/

/-- 30 daily systolic readings strictly decreasing by 1 per day
(day `i` has systolic `160 - i`), the scenario of claim C9. -/
def decreasingReadings30 : List Reading :=
  (List.range 30).map fun i =>
    { systolic := (160 : ℚ) - (i : ℕ), diastolic := 90,
      measurement_date := (i : ℤ) }

/-- 60 days of flat systolic 150 daily history, the scenario of claim C8. -/
def flatHistory60 : List HistoricalDataPoint :=
  (List.range 60).map fun d => { date := (d : ℤ), value := 150 }

/-- The risk assessment the embedding computes for a found patient with
no readings, medications or lifestyle data (used as a concrete witness). -/
def emptyDataRisk : RiskAssessment :=
  { overallRisk := "low"
    riskScore := 10
    factors := [{ name := "Insufficient BP Data"
                  impact := "moderate"
                  description := "No recent blood pressure readings available" }]
    recommendations := ["Maintain your healthy lifestyle habits",
                        "Start monitoring blood pressure daily"] }

/-- The health score the embedding computes for a found patient with no
readings, medications or lifestyle data (used as a concrete witness):
present categories BP 50, medication 85, lifestyle 50, monitoring 0,
weighted mean 48.75 / 0.9 = 54.16... rounded to 54. -/
def emptyDataHealth : HealthScore :=
  { overall := 54
    categories := [{ name := "Blood Pressure Control", score := 50, status := "fair" },
                   { name := "Medication Adherence", score := 85, status := "excellent" },
                   { name := "Lifestyle Factors", score := 50, status := "fair" },
                   { name := "Monitoring Consistency", score := 0, status := "poor" }]
    improvementAreas := ["Focus on consistent blood pressure management",
                         "Increase physical activity to 150 min/week",
                         "Reduce sodium intake below 2000mg/day",
                         "Monitor blood pressure more regularly"] }

/-! ## Theorems -/

/-- `pyRound q` is `⌊q⌋` or `⌊q⌋ + 1`. -/
theorem pyRound_bounds (q : ℚ) : ⌊q⌋ ≤ pyRound q ∧ pyRound q ≤ ⌊q⌋ + 1 := by
  simp only [pyRound]
  split_ifs <;> omega

/-- `pyRound` (round half to even) is monotone. -/
theorem pyRound_mono {a b : ℚ} (hab : a ≤ b) : pyRound a ≤ pyRound b := by
  have hf : ⌊a⌋ ≤ ⌊b⌋ := Int.floor_mono hab
  rcases lt_or_eq_of_le hf with hlt | heq
  · calc pyRound a ≤ ⌊a⌋ + 1 := (pyRound_bounds a).2
    _ ≤ ⌊b⌋ := by omega
    _ ≤ pyRound b := (pyRound_bounds b).1
  · have hr : a - (⌊a⌋ : ℚ) ≤ b - (⌊a⌋ : ℚ) := by linarith
    simp only [pyRound]
    rw [← heq]
    split_ifs <;> first | omega | linarith

/-- `pyRound1` (round half to even at one decimal) is monotone. -/
theorem pyRound1_mono {a b : ℚ} (hab : a ≤ b) : pyRound1 a ≤ pyRound1 b := by
  simp only [pyRound1, pyRoundDec]
  have h10 : a * 10 ^ 1 ≤ b * 10 ^ 1 := by norm_num; linarith
  have hcast : ((pyRound (a * 10 ^ 1) : ℚ)) ≤ ((pyRound (b * 10 ^ 1) : ℚ)) := by
    exact_mod_cast pyRound_mono h10
  gcongr

/-- The mean of a nonempty constant list is the constant. -/
theorem avgQ_const {l : List ℚ} {c : ℚ} (hall : ∀ x ∈ l, x = c)
    (hne : l ≠ []) : avgQ l = c := by
  have hsum : l.sum = (l.length : ℚ) * c := by
    induction l with
    | nil => simp
    | cons x xs ih =>
      have hx : x = c := hall x (List.mem_cons_self x xs)
      by_cases hxs : xs = []
      · subst hxs; simp [hx]
      · have := ih (fun y hy => hall y (List.mem_cons_of_mem x hy)) hxs
        simp [List.sum_cons, this, hx]
        ring
  have hlen : (l.length : ℚ) ≠ 0 := by
    have : l.length ≠ 0 := fun h0 => hne (List.length_eq_zero.mp h0)
    exact_mod_cast this
  rw [avgQ, hsum, mul_comm, mul_div_assoc, div_self hlen, mul_one]

set_option maxRecDepth 10000 in
/-- Claim C1: `invalidate(patientId)` is claimed to remove every entry
derived from that patient id, but the cache keys are MD5 hex digests of
the JSON key data and the code tests `patient_id in str(key)` on the
digest. For patient `"patient-1"` and analysis type `"risk"` the key is
the digest `5d9dd7422555d6995feff9fa52a2467e`, which does not contain the
patient id, so `invalidate "patient-1"` leaves the patient's own entry in
place, contradicting the claim (and the method's own docstring). -/
theorem C1_invalidate_leaves_patient_entry :
    make_key "patient-1" "risk" = "5d9dd7422555d6995feff9fa52a2467e" ∧
    pyInStr "patient-1" (make_key "patient-1" "risk") = false ∧
    invalidate "patient-1" [(make_key "patient-1" "risk", (0 : ℕ))] =
      [(make_key "patient-1" "risk", (0 : ℕ))] := by
  refine ⟨?_, ?_, ?_⟩ <;> rfl

/-- Constant lists have zero regression slope. -/
theorem regressionSlope_const {l : List ℚ} {c : ℚ} (hall : ∀ x ∈ l, x = c) :
    Predictions.regressionSlope l = 0 := by
  rcases eq_or_ne l [] with rfl | hne
  · simp [Predictions.regressionSlope, avgQ]
  · have hmean : avgQ l = c := avgQ_const hall hne
    have hnum :
        (((((List.range l.length).map fun i => (i : ℚ)).zip l).map fun p =>
          (p.1 - avgQ ((List.range l.length).map fun i => (i : ℚ))) *
            (p.2 - avgQ l)).sum) = 0 := by
      apply List.sum_eq_zero
      intro x hx
      rcases List.mem_map.mp hx with ⟨p, hp, rfl⟩
      have h2 : p.2 ∈ l := (List.of_mem_zip hp).2
      rw [hmean, hall p.2 h2, sub_self, mul_zero]
    simp only [Predictions.regressionSlope]
    rw [hnum]
    split_ifs <;> simp

/-- Constant lists have intercept equal to the constant. -/
theorem regressionIntercept_const {l : List ℚ} {c : ℚ}
    (hall : ∀ x ∈ l, x = c) (hne : l ≠ []) :
    Predictions.regressionIntercept l = c := by
  simp only [Predictions.regressionIntercept]
  rw [regressionSlope_const hall, avgQ_const hall hne]
  ring

/-- Constant lists have `r_squared = 0` (the `ss_tot > 0` test fails and
the code takes the 0 branch; in particular the value is a number, not the
NaN that `0/0` would give). -/
theorem rSquared_const {l : List ℚ} {c : ℚ} (hall : ∀ x ∈ l, x = c) :
    Predictions.rSquared l = 0 := by
  rcases eq_or_ne l [] with rfl | hne
  · simp [Predictions.rSquared, Predictions.residualsOf, avgQ]
  · have hmean : avgQ l = c := avgQ_const hall hne
    have htot : ((l.map fun y => (y - avgQ l) ^ 2).sum) = 0 := by
      apply List.sum_eq_zero
      intro x hx
      rcases List.mem_map.mp hx with ⟨y, hy, rfl⟩
      rw [hmean, hall y hy, sub_self]
      ring
    simp only [Predictions.rSquared]
    rw [htot]
    simp

/-- Claim C6: the per-factor Pearson correlation is absent exactly when
fewer than 5 paired samples exist, or the squared denominator is
non-positive, or the coefficient's magnitude is below 0.1 (equivalently
`100 * num² < denSq`); otherwise the reported coefficient is
`num / sqrt denSq` with `num` and `denSq` the standard Pearson numerator
and squared denominator of the paired samples. -/
theorem C6_factor_correlation_absent_iff (rows : List (Option ℚ × Option ℚ)) :
    (calculate_factor_correlation rows = none ↔
      (Correlations.pairsOf rows).length < 5 ∨
      Correlations.pearsonDenSq (Correlations.pairsOf rows) ≤ 0 ∨
      100 * Correlations.pearsonNum (Correlations.pairsOf rows) ^ 2 <
        Correlations.pearsonDenSq (Correlations.pairsOf rows)) ∧
    ∀ p, calculate_factor_correlation rows = some p →
      p.num = Correlations.pearsonNum (Correlations.pairsOf rows) ∧
      p.denSq = Correlations.pearsonDenSq (Correlations.pairsOf rows) ∧
      0 < p.denSq := by
  simp only [calculate_factor_correlation]
  split_ifs with h1 h2 h3 h4
  · exact ⟨by simp [h1], by simp⟩
  · exact ⟨by simp [h2], by simp⟩
  · exact absurd (le_of_eq h3) h2
  · exact ⟨by simp [h4], by simp⟩
  · constructor
    · simp [h1, h2, h4]
    · intro p hp
      have hps : p = ⟨Correlations.pearsonNum (Correlations.pairsOf rows),
          Correlations.pearsonDenSq (Correlations.pairsOf rows)⟩ := by
        exact (Option.some_injective _ hp).symm
      subst hps
      exact ⟨rfl, rfl, lt_of_not_le h2⟩

/-- Claim C6 witness: five perfectly correlated pairs plus a bent one give
a present correlation with the expected exact parts, while four pairs give
an absent one. -/
theorem C6_factor_correlation_witness :
    (calculate_factor_correlation
        [(some 1, some 1), (some 2, some 2), (some 3, some 3),
         (some 4, some 4), (some 5, some 6)] = none ↔
      (Correlations.pairsOf
        [(some 1, some 1), (some 2, some 2), (some 3, some 3),
         (some 4, some 4), (some 5, some 6)]).length < 5 ∨
      Correlations.pearsonDenSq (Correlations.pairsOf
        [(some 1, some 1), (some 2, some 2), (some 3, some 3),
         (some 4, some 4), (some 5, some 6)]) ≤ 0 ∨
      100 * Correlations.pearsonNum (Correlations.pairsOf
        [(some 1, some 1), (some 2, some 2), (some 3, some 3),
         (some 4, some 4), (some 5, some 6)]) ^ 2 <
        Correlations.pearsonDenSq (Correlations.pairsOf
          [(some 1, some 1), (some 2, some 2), (some 3, some 3),
           (some 4, some 4), (some 5, some 6)])) ∧
    ∀ p, calculate_factor_correlation
        [(some 1, some 1), (some 2, some 2), (some 3, some 3),
         (some 4, some 4), (some 5, some 6)] = some p →
      p.num = Correlations.pearsonNum (Correlations.pairsOf
        [(some 1, some 1), (some 2, some 2), (some 3, some 3),
         (some 4, some 4), (some 5, some 6)]) ∧
      p.denSq = Correlations.pearsonDenSq (Correlations.pairsOf
        [(some 1, some 1), (some 2, some 2), (some 3, some 3),
         (some 4, some 4), (some 5, some 6)]) ∧
      0 < p.denSq :=
  C6_factor_correlation_absent_iff
    [(some 1, some 1), (some 2, some 2), (some 3, some 3),
     (some 4, some 4), (some 5, some 6)]

/-- Claim C7 (amended): on a constant-valued input with at least the
minimum number of readings, the fitted slope is 0, the `r_squared` the
code computes is 0 (a number, not NaN: the `ss_tot > 0` branch is not
taken), the intercept — hence the unclamped prediction — equals the
constant, and the reported `predictedValue` is the constant clamped to
the metric's plausible range and rounded to one decimal. -/
theorem C7_constant_regression (readings : List Reading)
    (metric_key metric_name : String) (tf : ℕ) (c : ℚ)
    (hconst : ∀ r ∈ readings, Predictions.readVal metric_key r = c)
    (hlen : min_readings_for_analysis ≤ readings.length) :
    Predictions.regressionSlope
      ((Predictions.sortedByDate readings).map (Predictions.readVal metric_key)) = 0 ∧
    Predictions.rSquared
      ((Predictions.sortedByDate readings).map (Predictions.readVal metric_key)) = 0 ∧
    Predictions.regressionIntercept
      ((Predictions.sortedByDate readings).map (Predictions.readVal metric_key)) = c ∧
    (calculate_metric_prediction readings metric_key metric_name tf).predictedValue =
      pyRound1 (Predictions.clampMetric metric_key c) := by
  have hallv : ∀ x ∈ (Predictions.sortedByDate readings).map
      (Predictions.readVal metric_key), x = c := by
    intro x hx
    rcases List.mem_map.mp hx with ⟨r, hr, rfl⟩
    exact hconst r ((List.perm_insertionSort _ readings).mem_iff.mp hr)
  have hne : (Predictions.sortedByDate readings).map
      (Predictions.readVal metric_key) ≠ [] := by
    intro h0
    have hz : readings.length = 0 := by
      have := congrArg List.length h0
      simpa [Predictions.sortedByDate, List.length_insertionSort] using this
    rw [min_readings_for_analysis, hz] at hlen
    omega
  have hslope := regressionSlope_const hallv
  have hint := regressionIntercept_const hallv hne
  have hr2 := rSquared_const hallv
  refine ⟨hslope, hr2, hint, ?_⟩
  simp only [calculate_metric_prediction]
  rw [hslope, hint]
  simp

/-- Claim C7 counterexample: 7 readings with constant systolic 300 — the
regression predicts 300 but the reported `predictedValue` is the clamped
200, not the constant. -/
theorem C7_counterexample :
    (calculate_metric_prediction
      (List.replicate 7 ({ systolic := 300, diastolic := 90 } : Reading))
      "systolic" "Systolic BP" 30).predictedValue = 200 ∧
    (calculate_metric_prediction
      (List.replicate 7 ({ systolic := 300, diastolic := 90 } : Reading))
      "systolic" "Systolic BP" 30).predictedValue ≠ 300 := by
  refine ⟨by decide, by decide⟩

/-- Claim C7 witness: 7 readings with constant systolic 120 — slope 0,
`r_squared` 0, intercept 120 and reported prediction 120. -/
theorem C7_constant_regression_witness :
    Predictions.regressionSlope
      ((Predictions.sortedByDate
        (List.replicate 7 ({ systolic := 120, diastolic := 80 } : Reading))).map
        (Predictions.readVal "systolic")) = 0 ∧
    Predictions.rSquared
      ((Predictions.sortedByDate
        (List.replicate 7 ({ systolic := 120, diastolic := 80 } : Reading))).map
        (Predictions.readVal "systolic")) = 0 ∧
    Predictions.regressionIntercept
      ((Predictions.sortedByDate
        (List.replicate 7 ({ systolic := 120, diastolic := 80 } : Reading))).map
        (Predictions.readVal "systolic")) = 120 ∧
    (calculate_metric_prediction
      (List.replicate 7 ({ systolic := 120, diastolic := 80 } : Reading))
      "systolic" "Systolic BP" 30).predictedValue =
      pyRound1 (Predictions.clampMetric "systolic" 120) :=
  C7_constant_regression
    (List.replicate 7 ({ systolic := 120, diastolic := 80 } : Reading))
    "systolic" "Systolic BP" 30 120 (by decide) (by decide)

/-- Claim C2 (amended): of the analytic routines, trend prediction,
pattern detection, correlation analysis and forecast raise
`InsufficientData` with the actual and required counts when the patient
exists and the readings count is below the configured minimum; risk
assessment and health score perform no such check and return a result
normally (risk assessment scores missing BP data as a risk factor
instead). -/
theorem C2_insufficient_data_guards (pid : String) (p : Patient)
    (readings : List Reading) (medications : List Medication)
    (lifestyle : List LifestyleEntry) (metric : String) (fd : ℕ)
    (std_error : ℚ) (h : readings.length < min_readings_for_analysis) :
    calculate_predictions pid (some p) readings =
      .error (.insufficientData readings.length min_readings_for_analysis) ∧
    analyze_patterns pid (some p) readings lifestyle =
      .error (.insufficientData readings.length min_readings_for_analysis) ∧
    analyze_correlations pid (some p) readings lifestyle =
      .error (.insufficientData readings.length min_readings_for_analysis) ∧
    generate_forecast pid (some p) readings metric fd std_error =
      .error (.insufficientData readings.length min_readings_for_analysis) ∧
    (calculate_risk_assessment pid (some p) readings medications lifestyle).isOk
      = true ∧
    (calculate_health_score pid (some p) readings medications lifestyle).isOk
      = true := by
  refine ⟨?_, ?_, ?_, ?_, ?_, ?_⟩
  · simp [calculate_predictions, h]
  · simp [analyze_patterns, h]
  · simp [analyze_correlations, h]
  · simp [generate_forecast, h]
  · rfl
  · rfl

/-- Claim C2 counterexample: a found patient with 3 readings makes
`calculate_risk_assessment` return a result (risk 0, label low), not
raise `InsufficientData` with `readings_count=3, minimum_required=7` as
claimed. -/
theorem C2_risk_returns_on_three_readings :
    calculate_risk_assessment "patient-1" (some {})
      (List.replicate 3 ({ systolic := 120, diastolic := 80 } : Reading)) [] [] =
      Except.ok { overallRisk := "low", riskScore := 0, factors := []
                  recommendations := ["Maintain your healthy lifestyle habits"] } ∧
    calculate_risk_assessment "patient-1" (some {})
      (List.replicate 3 ({ systolic := 120, diastolic := 80 } : Reading)) [] [] ≠
      Except.error (.insufficientData 3 7) := by
  refine ⟨by decide, by decide⟩

/-- Claim C2 witness: the guards at a patient with 3 readings (below the
default minimum 7). -/
theorem C2_insufficient_data_guards_witness :
    calculate_predictions "patient-1" (some {})
      (List.replicate 3 ({ systolic := 120, diastolic := 80 } : Reading)) =
      .error (.insufficientData
        (List.replicate 3 ({ systolic := 120, diastolic := 80 } : Reading)).length
        min_readings_for_analysis) ∧
    analyze_patterns "patient-1" (some {})
      (List.replicate 3 ({ systolic := 120, diastolic := 80 } : Reading)) [] =
      .error (.insufficientData
        (List.replicate 3 ({ systolic := 120, diastolic := 80 } : Reading)).length
        min_readings_for_analysis) ∧
    analyze_correlations "patient-1" (some {})
      (List.replicate 3 ({ systolic := 120, diastolic := 80 } : Reading)) [] =
      .error (.insufficientData
        (List.replicate 3 ({ systolic := 120, diastolic := 80 } : Reading)).length
        min_readings_for_analysis) ∧
    generate_forecast "patient-1" (some {})
      (List.replicate 3 ({ systolic := 120, diastolic := 80 } : Reading))
      "systolic" 30 0 =
      .error (.insufficientData
        (List.replicate 3 ({ systolic := 120, diastolic := 80 } : Reading)).length
        min_readings_for_analysis) ∧
    (calculate_risk_assessment "patient-1" (some {})
      (List.replicate 3 ({ systolic := 120, diastolic := 80 } : Reading)) [] []).isOk
      = true ∧
    (calculate_health_score "patient-1" (some {})
      (List.replicate 3 ({ systolic := 120, diastolic := 80 } : Reading)) [] []).isOk
      = true :=
  C2_insufficient_data_guards "patient-1" {}
    (List.replicate 3 ({ systolic := 120, diastolic := 80 } : Reading)) [] []
    "systolic" 30 0 (by decide)

/-- The insight-priority order is total. -/
instance : IsTotal Insight (fun a b => a.priority ≤ b.priority) :=
  ⟨fun a b => Nat.le_total a.priority b.priority⟩

/-- The insight-priority order is transitive. -/
instance : IsTrans Insight (fun a b => a.priority ≤ b.priority) :=
  ⟨fun _ _ _ hab hbc => Nat.le_trans hab hbc⟩

/-- No insight produced by `_analyze_bp_patterns` is the "More Data
Needed" one. -/
theorem analyze_bp_patterns_titles (readings : List Reading) (ts : String) :
    ∀ i ∈ Insights.analyze_bp_patterns readings ts,
      i.title ≠ "More Data Needed" := by
  intro i hi
  simp only [Insights.analyze_bp_patterns] at hi
  split_ifs at hi <;>
    simp only [List.mem_append, List.mem_singleton, List.not_mem_nil, or_false,
      false_or] at hi <;>
    (try casesm* _ ∨ _) <;> subst_vars <;> simp

/-- No insight produced by `_analyze_medication_adherence` is the "More
Data Needed" one. -/
theorem analyze_medication_adherence_titles (medications : List Medication)
    (ts : String) :
    ∀ i ∈ Insights.analyze_medication_adherence medications ts,
      i.title ≠ "More Data Needed" := by
  intro i hi
  simp only [Insights.analyze_medication_adherence] at hi
  split_ifs at hi <;>
    simp only [List.mem_append, List.mem_singleton, List.not_mem_nil, or_false,
      false_or] at hi <;>
    (try casesm* _ ∨ _) <;> subst_vars <;> simp

/-- No insight produced by `_analyze_lifestyle` is the "More Data Needed"
one. -/
theorem analyze_lifestyle_titles (lifestyle : List LifestyleEntry)
    (ts : String) :
    ∀ i ∈ Insights.analyze_lifestyle lifestyle ts,
      i.title ≠ "More Data Needed" := by
  intro i hi
  cases lifestyle with
  | nil => simp [Insights.analyze_lifestyle] at hi
  | cons e rest =>
    simp only [Insights.analyze_lifestyle] at hi
    split_ifs at hi <;>
      simp only [List.mem_append, List.mem_singleton, List.not_mem_nil, or_false,
        false_or] at hi <;>
      (try casesm* _ ∨ _) <;> subst_vars <;> simp

/-- No insight produced by the insights-side `_analyze_time_patterns` is
the "More Data Needed" one. -/
theorem analyze_time_patterns_titles (readings : List Reading) (ts : String) :
    ∀ i ∈ Insights.analyze_time_patterns readings ts,
      i.title ≠ "More Data Needed" := by
  intro i hi
  simp only [Insights.analyze_time_patterns] at hi
  split_ifs at hi <;>
    simp only [List.mem_append, List.mem_singleton, List.not_mem_nil, or_false,
      false_or] at hi <;>
    (try casesm* _ ∨ _) <;> subst_vars <;> simp

/-- Claim C3 (amended): when the patient is found, `generate_insights`
returns between 0 and 8 items sorted by non-decreasing priority; it
returns exactly the single info/priority-3 "need more data" item when the
readings count is below the configured minimum, and that item appears
only in that case. (The claimed lower bound of 1 item fails: with enough
readings but no triggered analysis the list is empty, see the
counterexample.) -/
theorem C3_insights_shape (pid : String) (p : Patient)
    (readings : List Reading) (medications : List Medication)
    (lifestyle : List LifestyleEntry) (now : String) (l : List Insight)
    (h : generate_insights pid (some p) readings medications lifestyle now =
      Except.ok l) :
    l.length ≤ 8 ∧
    l.Sorted (fun a b => a.priority ≤ b.priority) ∧
    (readings.length < min_readings_for_analysis →
      l = [Insights.needMoreData readings.length min_readings_for_analysis now]) ∧
    (∀ i ∈ l, i.title = "More Data Needed" →
      readings.length < min_readings_for_analysis) := by
  by_cases hc : readings.length < min_readings_for_analysis
  · have hl : l = [Insights.needMoreData readings.length
        min_readings_for_analysis now] := by
      simp only [generate_insights, if_pos hc] at h
      exact (Except.ok.injEq _ _).mp h.symm |>.symm ▸ rfl
    subst hl
    refine ⟨by simp, by simp, fun _ => rfl, fun i hi _ => hc⟩
  · have hl : l = ((Insights.analyze_bp_patterns readings now ++
        (if medications ≠ [] then
          Insights.analyze_medication_adherence medications now else []) ++
        (if lifestyle ≠ [] then
          Insights.analyze_lifestyle lifestyle now else []) ++
        Insights.analyze_time_patterns readings now).insertionSort fun a b =>
          a.priority ≤ b.priority).take 8 := by
      simp only [generate_insights, if_neg hc] at h
      exact ((Except.ok.injEq _ _).mp h).symm
    subst hl
    refine ⟨List.length_take_le 8 _, ?_, fun hlt => absurd hlt hc, ?_⟩
    · exact ((List.sorted_insertionSort _ _).sublist
        (List.take_sublist 8 _))
    · intro i hi htitle
      exfalso
      have hi2 : i ∈ (Insights.analyze_bp_patterns readings now ++
          (if medications ≠ [] then
            Insights.analyze_medication_adherence medications now else []) ++
          (if lifestyle ≠ [] then
            Insights.analyze_lifestyle lifestyle now else []) ++
          Insights.analyze_time_patterns readings now) :=
        (List.perm_insertionSort _ _).subset (List.take_subset 8 _ hi)
      simp only [List.mem_append] at hi2
      rcases hi2 with ((hbp | hmed) | hlife) | htime
      · exact analyze_bp_patterns_titles readings now i hbp htitle
      · rcases Decidable.em (medications ≠ []) with hm | hm
        · rw [if_pos hm] at hmed
          exact analyze_medication_adherence_titles medications now i hmed htitle
        · rw [if_neg hm] at hmed
          exact absurd hmed (List.not_mem_nil i)
      · rcases Decidable.em (lifestyle ≠ []) with hm | hm
        · rw [if_pos hm] at hlife
          exact analyze_lifestyle_titles lifestyle now i hlife htitle
        · rw [if_neg hm] at hlife
          exact absurd hlife (List.not_mem_nil i)
      · exact analyze_time_patterns_titles readings now i htime htitle

/-- Claim C3 counterexample: a found patient with 7 unremarkable readings
(systolic 135 / diastolic 86, no time-of-day data) and no medications or
lifestyle data gets an empty insights list — the claimed lower bound of 1
item does not hold. -/
theorem C3_counterexample_empty_insights :
    generate_insights "patient-1" (some {})
      (List.replicate 7 ({ systolic := 135, diastolic := 86 } : Reading))
      [] [] "t" = Except.ok [] := by
  decide

/-- Claim C3 witness: the short-circuit case at 3 readings. -/
theorem C3_insights_shape_witness :
    ([Insights.needMoreData 3 7 "t"] : List Insight).length ≤ 8 ∧
    ([Insights.needMoreData 3 7 "t"] : List Insight).Sorted
      (fun a b => a.priority ≤ b.priority) ∧
    ((List.replicate 3 ({ systolic := 120, diastolic := 80 } : Reading)).length <
        min_readings_for_analysis →
      [Insights.needMoreData 3 7 "t"] =
        [Insights.needMoreData
          (List.replicate 3 ({ systolic := 120, diastolic := 80 } : Reading)).length
          min_readings_for_analysis "t"]) ∧
    (∀ i ∈ ([Insights.needMoreData 3 7 "t"] : List Insight),
      i.title = "More Data Needed" →
      (List.replicate 3 ({ systolic := 120, diastolic := 80 } : Reading)).length <
        min_readings_for_analysis) :=
  C3_insights_shape "patient-1" {}
    (List.replicate 3 ({ systolic := 120, diastolic := 80 } : Reading))
    [] [] "t" [Insights.needMoreData 3 7 "t"] (by decide)

/-- The blood-pressure section contributes a non-negative score. -/
theorem bpSection_nonneg (readings : List Reading) :
    0 ≤ (Risk.bpSection readings).1 := by
  simp only [Risk.bpSection]
  by_cases h : readings ≠ []
  · rw [if_pos h]
    dsimp only
    refine add_nonneg (add_nonneg (add_nonneg ?_ ?_) ?_) ?_ <;>
      split_ifs <;> norm_num
  · rw [if_neg h]; norm_num

/-- The medication section contributes a non-negative score. -/
theorem medicationSection_nonneg (medications : List Medication) :
    0 ≤ (Risk.medicationSection medications).1 := by
  simp only [Risk.medicationSection]
  split_ifs <;> norm_num

/-- The lifestyle section contributes a non-negative score. -/
theorem lifestyleSection_nonneg (lifestyle : List LifestyleEntry) :
    0 ≤ (Risk.lifestyleSection lifestyle).1 := by
  cases lifestyle with
  | nil => simp [Risk.lifestyleSection]
  | cons e rest =>
    simp only [Risk.lifestyleSection]
    refine add_nonneg (add_nonneg (add_nonneg (add_nonneg
      (add_nonneg ?_ ?_) ?_) ?_) ?_) ?_ <;> split_ifs <;> norm_num

/-- The demographics section contributes a non-negative score. -/
theorem demographicsSection_nonneg (p : Patient) :
    0 ≤ (Risk.demographicsSection p).1 := by
  simp only [Risk.demographicsSection]
  refine add_nonneg (add_nonneg (add_nonneg ?_ ?_) ?_) ?_ <;>
    split_ifs <;> norm_num

/-- Claim C4: whenever `calculate_risk_assessment` returns, the risk
score is in [0, 100], the overall label is assigned boundary-inclusively
(score ≥ 70 critical, ≥ 50 high, ≥ 30 moderate, otherwise low — so 30 is
moderate and 29 is low), and the recommendations list has at most 5
entries whose first element is the label's top recommendation. -/
theorem C4_risk_score_and_label (pid : String) (p : Patient)
    (readings : List Reading) (medications : List Medication)
    (lifestyle : List LifestyleEntry) (r : RiskAssessment)
    (h : calculate_risk_assessment pid (some p) readings medications lifestyle =
      Except.ok r) :
    0 ≤ r.riskScore ∧ r.riskScore ≤ 100 ∧
    r.overallRisk =
      (if 70 ≤ r.riskScore then "critical"
       else if 50 ≤ r.riskScore then "high"
       else if 30 ≤ r.riskScore then "moderate"
       else "low") ∧
    r.recommendations.length ≤ 5 ∧
    r.recommendations.head? =
      some (if 70 ≤ r.riskScore then
          "Schedule urgent appointment with your healthcare provider"
        else if 50 ≤ r.riskScore then
          "Schedule follow-up appointment within 1-2 weeks"
        else if 30 ≤ r.riskScore then
          "Continue regular monitoring and follow treatment plan"
        else "Maintain your healthy lifestyle habits") := by
  simp only [calculate_risk_assessment] at h
  have hr := (Except.ok.injEq _ _).mp h
  subst hr
  dsimp only
  refine ⟨?_, ?_, ?_, ?_, ?_⟩
  · exact le_min (by norm_num)
      (add_nonneg (add_nonneg (add_nonneg (bpSection_nonneg readings)
        (medicationSection_nonneg medications))
        (lifestyleSection_nonneg lifestyle)) (demographicsSection_nonneg p))
  · exact min_le_left _ _
  · simp only [Risk.overallOf]
    split_ifs <;> rfl
  · rw [List.length_take]
    exact min_le_left _ _
  · rw [List.take_succ_cons, List.head?_cons]
    simp only [Risk.overallOf]
    split_ifs <;> rfl

/-- Claim C4 witness: a found patient with no data at all gets risk score
10 (insufficient-data factor), label low, and the low-label top
recommendation first. -/
theorem C4_risk_score_and_label_witness :
    0 ≤ emptyDataRisk.riskScore ∧ emptyDataRisk.riskScore ≤ 100 ∧
    emptyDataRisk.overallRisk =
      (if 70 ≤ emptyDataRisk.riskScore then "critical"
       else if 50 ≤ emptyDataRisk.riskScore then "high"
       else if 30 ≤ emptyDataRisk.riskScore then "moderate"
       else "low") ∧
    emptyDataRisk.recommendations.length ≤ 5 ∧
    emptyDataRisk.recommendations.head? =
      some (if 70 ≤ emptyDataRisk.riskScore then
          "Schedule urgent appointment with your healthcare provider"
        else if 50 ≤ emptyDataRisk.riskScore then
          "Schedule follow-up appointment within 1-2 weeks"
        else if 30 ≤ emptyDataRisk.riskScore then
          "Continue regular monitoring and follow treatment plan"
        else "Maintain your healthy lifestyle habits") :=
  C4_risk_score_and_label "patient-1" {} [] [] [] emptyDataRisk (by decide)

/-- Claim C5: the health score overall value is the weighted mean of
exactly the categories present in the result, with weights BP control
0.35, medication adherence 0.25, lifestyle 0.20, monitoring consistency
0.10, sleep 0.10, normalized by the sum of the present categories'
weights; the Sleep & Recovery category is present (and weighted) exactly
when lifestyle data exists. -/
theorem C5_health_weighted_mean (pid : String) (p : Patient)
    (readings : List Reading) (medications : List Medication)
    (lifestyle : List LifestyleEntry) (days : ℕ) (hs : HealthScore)
    (h : calculate_health_score pid (some p) readings medications lifestyle days =
      Except.ok hs) :
    hs.overall =
      pyRound ((hs.categories.map fun c => (c.score : ℚ) * Health.weightOf c.name).sum /
        (hs.categories.map fun c => Health.weightOf c.name).sum) ∧
    Health.weightOf "Blood Pressure Control" = 35/100 ∧
    Health.weightOf "Medication Adherence" = 25/100 ∧
    Health.weightOf "Lifestyle Factors" = 20/100 ∧
    Health.weightOf "Monitoring Consistency" = 10/100 ∧
    Health.weightOf "Sleep & Recovery" = 10/100 ∧
    (lifestyle = [] →
      hs.categories.map (·.name) =
        ["Blood Pressure Control", "Medication Adherence", "Lifestyle Factors",
         "Monitoring Consistency"]) ∧
    (lifestyle ≠ [] →
      hs.categories.map (·.name) =
        ["Blood Pressure Control", "Medication Adherence", "Lifestyle Factors",
         "Monitoring Consistency", "Sleep & Recovery"]) := by
  simp only [calculate_health_score] at h
  have hr := (Except.ok.injEq _ _).mp h
  subst hr
  dsimp only
  refine ⟨rfl, by decide, by decide, by decide, by decide, by decide, ?_, ?_⟩
  · intro hl
    simp [hl]
  · intro hl
    simp [hl]

/-- Claim C5 witness: with no lifestyle data the Sleep & Recovery
category is absent and the mean is normalized by 0.9. -/
theorem C5_health_weighted_mean_witness :
    emptyDataHealth.overall =
      pyRound ((emptyDataHealth.categories.map fun c =>
          (c.score : ℚ) * Health.weightOf c.name).sum /
        (emptyDataHealth.categories.map fun c => Health.weightOf c.name).sum) ∧
    Health.weightOf "Blood Pressure Control" = 35/100 ∧
    Health.weightOf "Medication Adherence" = 25/100 ∧
    Health.weightOf "Lifestyle Factors" = 20/100 ∧
    Health.weightOf "Monitoring Consistency" = 10/100 ∧
    Health.weightOf "Sleep & Recovery" = 10/100 ∧
    (([] : List LifestyleEntry) = [] →
      emptyDataHealth.categories.map (·.name) =
        ["Blood Pressure Control", "Medication Adherence", "Lifestyle Factors",
         "Monitoring Consistency"]) ∧
    (([] : List LifestyleEntry) ≠ [] →
      emptyDataHealth.categories.map (·.name) =
        ["Blood Pressure Control", "Medication Adherence", "Lifestyle Factors",
         "Monitoring Consistency", "Sleep & Recovery"]) :=
  C5_health_weighted_mean "patient-1" {} [] [] [] 30 emptyDataHealth (by decide)

/-- `getD` of a mapped range picks the function value. -/
theorem getD_map_range {α : Type} (f : ℕ → α) (n j : ℕ) (hj : j < n) (d : α) :
    ((List.range n).map f).getD j d = f j := by
  rw [List.getD_eq_getElem?_getD, List.getElem?_map, List.getElem?_range hj]
  rfl

set_option maxRecDepth 40000 in
/-- Claim C8 (amended): each forecast point `i` (of `forecast_days`) has
bounds `predicted ± margin` with
`margin = 1.96 * std_error * (1 + 0.5 * (i / forecast_days))`, each side
separately clamped to the wider per-metric limits, where `std_error` is
the residual standard error of the regression (10 when there are at most
2 residuals); for the 60-day flat-150 systolic history with horizon 30
that standard error is 0, so the band width at day 30 equals the band
width at day 1 (both zero) rather than exceeding it as claimed. -/
theorem C8_margin_formula_and_flat_band (historical : List HistoricalDataPoint)
    (forecast_days : ℕ) (metric : String) (std_error : ℚ)
    (hstd : (2 < (historical.map (·.value)).length →
        0 ≤ std_error ∧
        std_error ^ 2 = Forecast.npVariance
          (Predictions.residualsOf (historical.map (·.value)))) ∧
      ((historical.map (·.value)).length ≤ 2 → std_error = 10)) :
    (∀ j, j < forecast_days →
      (generate_forecast_points historical forecast_days metric std_error).getD j
          ⟨0, 0, 0, 0⟩ =
        (let values := historical.map (·.value)
         let predicted := max (Forecast.clamps metric).1
           (min (Forecast.clamps metric).2.1
             (Predictions.regressionIntercept values +
               Predictions.regressionSlope values *
                 ((values.length : ℚ) + ((j + 1 : ℕ) : ℚ) - 1)))
         let marg := (196/100) * std_error *
           (1 + (((j + 1 : ℕ) : ℚ) / (forecast_days : ℚ)) * (1/2))
         { date := ((historical.getLast?.map (·.date)).getD 0) + ((j + 1 : ℕ) : ℤ)
           predicted := pyRound1 predicted
           upperBound := pyRound1 (min (Forecast.clamps metric).2.2.1 (predicted + marg))
           lowerBound := pyRound1 (max (Forecast.clamps metric).2.2.2 (predicted - marg)) })) ∧
    ((generate_forecast_points flatHistory60 30 "systolic" 0).getD 29
          ⟨0, 0, 0, 0⟩).upperBound -
        ((generate_forecast_points flatHistory60 30 "systolic" 0).getD 29
          ⟨0, 0, 0, 0⟩).lowerBound =
      ((generate_forecast_points flatHistory60 30 "systolic" 0).getD 0
          ⟨0, 0, 0, 0⟩).upperBound -
        ((generate_forecast_points flatHistory60 30 "systolic" 0).getD 0
          ⟨0, 0, 0, 0⟩).lowerBound := by
  constructor
  · intro j hj
    simp only [generate_forecast_points]
    rw [getD_map_range _ _ _ hj]
    rfl
  · decide

set_option maxRecDepth 40000 in
/-- Claim C8 counterexample: for the 60-day flat-150 systolic history the
regression residuals have variance 0, so `std_error = 0` and every margin
is 0: the band width at day 30 is not greater than at day 1 (both are 0). -/
theorem C8_counterexample_flat_band :
    Forecast.npVariance (Predictions.residualsOf (flatHistory60.map (·.value))) = 0 ∧
    ¬(((generate_forecast_points flatHistory60 30 "systolic" 0).getD 29
          ⟨0, 0, 0, 0⟩).upperBound -
        ((generate_forecast_points flatHistory60 30 "systolic" 0).getD 29
          ⟨0, 0, 0, 0⟩).lowerBound >
      ((generate_forecast_points flatHistory60 30 "systolic" 0).getD 0
          ⟨0, 0, 0, 0⟩).upperBound -
        ((generate_forecast_points flatHistory60 30 "systolic" 0).getD 0
          ⟨0, 0, 0, 0⟩).lowerBound) := by
  refine ⟨by decide, by decide⟩

set_option maxRecDepth 40000 in
/-- Claim C8 witness: the first forecast point of the flat-150 scenario,
and the equal band widths. -/
theorem C8_margin_formula_and_flat_band_witness :
    (generate_forecast_points flatHistory60 30 "systolic" 0).getD 0 ⟨0, 0, 0, 0⟩ =
      { date := 60, predicted := 150, upperBound := 150, lowerBound := 150 } ∧
    ((generate_forecast_points flatHistory60 30 "systolic" 0).getD 29
          ⟨0, 0, 0, 0⟩).upperBound -
        ((generate_forecast_points flatHistory60 30 "systolic" 0).getD 29
          ⟨0, 0, 0, 0⟩).lowerBound =
      ((generate_forecast_points flatHistory60 30 "systolic" 0).getD 0
          ⟨0, 0, 0, 0⟩).upperBound -
        ((generate_forecast_points flatHistory60 30 "systolic" 0).getD 0
          ⟨0, 0, 0, 0⟩).lowerBound :=
  ⟨(C8_margin_formula_and_flat_band flatHistory60 30 "systolic" 0
      (by decide)).1 0 (by norm_num),
   (C8_margin_formula_and_flat_band flatHistory60 30 "systolic" 0
      (by decide)).2⟩

set_option maxRecDepth 40000 in
/-- Claim C9: trend labels come from the regression slope converted to
slope-per-day: for systolic/diastolic, below −0.3 improving, above +0.3
worsening, otherwise stable; for pulse, magnitude below 0.5 stable, then
negative improving / positive worsening; and 30 daily systolic readings
decreasing by 1/day yield trend "improving" with a predicted value below
the current value. -/
theorem C9_trend_thresholds (readings : List Reading)
    (metric_key metric_name : String) (tf : ℕ) :
    ((metric_key = "systolic" ∨ metric_key = "diastolic") →
      (calculate_metric_prediction readings metric_key metric_name tf).trend =
        (if Predictions.regressionSlope ((Predictions.sortedByDate readings).map
              (Predictions.readVal metric_key)) *
            Predictions.readingsPerDay (Predictions.sortedByDate readings) <
            -(3/10) then "improving"
         else if (3/10 : ℚ) <
            Predictions.regressionSlope ((Predictions.sortedByDate readings).map
              (Predictions.readVal metric_key)) *
            Predictions.readingsPerDay (Predictions.sortedByDate readings)
         then "worsening"
         else "stable")) ∧
    (metric_key = "pulse" →
      (calculate_metric_prediction readings metric_key metric_name tf).trend =
        (if |Predictions.regressionSlope ((Predictions.sortedByDate readings).map
              (Predictions.readVal metric_key)) *
            Predictions.readingsPerDay (Predictions.sortedByDate readings)| <
            1/2 then "stable"
         else if Predictions.regressionSlope ((Predictions.sortedByDate readings).map
              (Predictions.readVal metric_key)) *
            Predictions.readingsPerDay (Predictions.sortedByDate readings) < 0
         then "improving"
         else "worsening")) ∧
    (calculate_metric_prediction decreasingReadings30 "systolic" "Systolic BP"
        30).trend = "improving" ∧
    (calculate_metric_prediction decreasingReadings30 "systolic" "Systolic BP"
        30).predictedValue <
      (calculate_metric_prediction decreasingReadings30 "systolic" "Systolic BP"
        30).currentValue := by
  refine ⟨?_, ?_, by decide, by decide⟩
  · intro hm
    simp only [calculate_metric_prediction, Predictions.trendOf]
    rw [if_pos hm]
  · intro hm
    subst hm
    simp only [calculate_metric_prediction, Predictions.trendOf]
    rw [if_neg (by decide)]

set_option maxRecDepth 40000 in
/-- Claim C9 witness: the systolic labelling rule at the decreasing
scenario readings. -/
theorem C9_trend_thresholds_witness :
    (calculate_metric_prediction decreasingReadings30 "systolic" "Systolic BP"
        30).trend =
      (if Predictions.regressionSlope ((Predictions.sortedByDate
            decreasingReadings30).map (Predictions.readVal "systolic")) *
          Predictions.readingsPerDay (Predictions.sortedByDate decreasingReadings30) <
          -(3/10) then "improving"
       else if (3/10 : ℚ) <
          Predictions.regressionSlope ((Predictions.sortedByDate
            decreasingReadings30).map (Predictions.readVal "systolic")) *
          Predictions.readingsPerDay (Predictions.sortedByDate decreasingReadings30)
       then "worsening"
       else "stable") :=
  (C9_trend_thresholds decreasingReadings30 "systolic" "Systolic BP" 30).1
    (Or.inl rfl)

/-- Claim C10: in every forecast point (any metric, horizon, history, and
non-negative residual standard error), `lowerBound ≤ predicted ≤
upperBound`: the per-metric clamping of the predicted value and of the
bounds never inverts the ordering. -/
theorem C10_forecast_bounds_ordered (historical : List HistoricalDataPoint)
    (forecast_days : ℕ) (metric : String) (std_error : ℚ)
    (hstd : 0 ≤ std_error) :
    ∀ pt ∈ generate_forecast_points historical forecast_days metric std_error,
      pt.lowerBound ≤ pt.predicted ∧ pt.predicted ≤ pt.upperBound := by
  intro pt hpt
  simp only [generate_forecast_points, List.mem_map] at hpt
  obtain ⟨j, hj, rfl⟩ := hpt
  dsimp only
  have hmarg : 0 ≤ (196/100) * std_error *
      (1 + (((j + 1 : ℕ) : ℚ) / (forecast_days : ℚ)) * (1/2)) := by
    apply mul_nonneg (mul_nonneg (by norm_num) hstd)
    positivity
  simp only [Forecast.margin, Forecast.clamps]
  split_ifs <;>
    exact ⟨pyRound1_mono (max_le (le_trans (by norm_num) (le_max_left _ _))
        (by linarith [hmarg])),
      pyRound1_mono (le_min (max_le (by norm_num)
        (le_trans (min_le_left _ _) (by norm_num))) (by linarith [hmarg]))⟩

set_option maxRecDepth 40000 in
/-- Claim C10 witness: the first forecast point of a flat systolic
history with standard error 1 has ordered bounds. -/
theorem C10_forecast_bounds_ordered_witness :
    ((generate_forecast_points flatHistory60 3 "systolic" 1).getD 0
        ⟨0, 0, 0, 0⟩).lowerBound ≤
      ((generate_forecast_points flatHistory60 3 "systolic" 1).getD 0
        ⟨0, 0, 0, 0⟩).predicted ∧
    ((generate_forecast_points flatHistory60 3 "systolic" 1).getD 0
        ⟨0, 0, 0, 0⟩).predicted ≤
      ((generate_forecast_points flatHistory60 3 "systolic" 1).getD 0
        ⟨0, 0, 0, 0⟩).upperBound :=
  C10_forecast_bounds_ordered flatHistory60 3 "systolic" 1 (by norm_num)
    ((generate_forecast_points flatHistory60 3 "systolic" 1).getD 0 ⟨0, 0, 0, 0⟩)
    (by decide)
